import Mathlib

/-!
# Verification of the brewos firmware core

A shallow embedding, in Lean 4, of the parts of the dual-MCU espresso-machine
firmware that the specification's testable properties talk about:

* the PID temperature controller (`pid_init` / `pid_compute`, from
  `src/pico/test/test_pid.c`, which carries the reference implementation);
* the status change detector (`StatusChangeDetector::hasChanged`, from
  `src/esp32/src/utils/status_change_detector.cpp`);
* the MQTT power-meter ingestion (`MQTTPowerMeter`, from
  `src/esp32/src/power_meter/mqtt_power_meter.cpp`);
* the per-channel sensor fault tracking (from `src/pico/src/sensors.c`);
* the serial bootloader's firmware-reception loop and flash-copy pipeline
  (from `src/pico/src/bootloader.c`).

Machine floats are modelled as exact rationals extended with a NaN element:
rounding and overflow are abstracted away, while NaN propagation and the
false-on-NaN comparison semantics of IEEE 754 are preserved.  Machine
integers are modelled as `Nat` with explicit reduction modulo `2 ^ w` where
overflow matters.  Hardware side effects (UART bytes, flash writes) are
modelled as explicit logs carried in the state.
-/

-- Batteries marks the `Rat` arithmetic irreducible, which blocks kernel
-- evaluation of concrete rational arithmetic; re-enable it so that concrete
-- runs of the embedded firmware functions can be checked by `decide`.
unseal Rat.add Rat.mul Rat.sub Rat.inv

/-- A C `float` value: either NaN or an exact rational.  Rounding is
abstracted away (operations are exact); NaN propagates through arithmetic
and makes every ordered comparison false, as in IEEE 754. -/
inductive F where
  | nan : F
  | val : ℚ → F
deriving DecidableEq

/-- Float addition: NaN propagates. -/
def F.add : F → F → F
  | .val a, .val b => .val (a + b)
  | _, _ => .nan

/-- Float subtraction: NaN propagates. -/
def F.sub : F → F → F
  | .val a, .val b => .val (a - b)
  | _, _ => .nan

/-- Float multiplication: NaN propagates. -/
def F.mul : F → F → F
  | .val a, .val b => .val (a * b)
  | _, _ => .nan

/-- Float division: NaN propagates.  Division of a finite value by zero is
mapped to NaN; the firmware paths embedded here guard every division
(`dt > 0`, `ki > 0.001`, `tau + dt > 0`), so the IEEE infinity result is
never exercised. -/
def F.div : F → F → F
  | .val a, .val b => if b = 0 then .nan else .val (a / b)
  | _, _ => .nan

/-- Float negation: NaN propagates. -/
def F.neg : F → F
  | .val a => .val (-a)
  | .nan => .nan

/-- Float `<` comparison: false whenever either side is NaN. -/
def F.lt : F → F → Bool
  | .val a, .val b => decide (a < b)
  | _, _ => false

/-- Float `<=` comparison: false whenever either side is NaN. -/
def F.le : F → F → Bool
  | .val a, .val b => decide (a ≤ b)
  | _, _ => false

/-- Is this float a (finite) numeric value, i.e. not NaN? -/
def F.isVal : F → Bool
  | .val _ => true
  | .nan => false

/-- Clamp a rational into `[lo, hi]`, written with `min`/`max`. -/
def clampQ (x lo hi : ℚ) : ℚ := max lo (min x hi)

/-! ## PID controller (`src/pico/test/test_pid.c`)

The PID state structure and the reference implementation of
`pid_init` / `pid_compute` are embedded from `test_pid.c`, which carries the
fixed `control_common.c` implementation verbatim. -/

/-- PID state, mirroring `pid_state_t` in `test_pid.c`. -/
structure pid_state_t where
  kp : F
  ki : F
  kd : F
  setpoint : F
  setpoint_target : F
  integral : F
  last_error : F
  last_measurement : F
  last_derivative : F
  output : F
  setpoint_ramping : Bool
  ramp_rate : F
  first_run : Bool
deriving DecidableEq

/-- `PID_DERIVATIVE_FILTER_TAU` (0.5f) from `test_pid.c`. -/
def PID_DERIVATIVE_FILTER_TAU : F := .val (1 / 2)

/-- `PID_OUTPUT_MAX` (100.0f) from `test_pid.c`. -/
def PID_OUTPUT_MAX : F := .val 100

/-- `PID_OUTPUT_MIN` (0.0f) from `test_pid.c`. -/
def PID_OUTPUT_MIN : F := .val 0

/-- `pid_init` from `test_pid.c`. -/
def pid_init (kp ki kd setpoint : F) : pid_state_t :=
  { kp := kp
    ki := ki
    kd := kd
    setpoint := setpoint
    setpoint_target := setpoint
    integral := .val 0
    last_error := .val 0
    last_measurement := .val 0
    last_derivative := .val 0
    output := .val 0
    setpoint_ramping := false
    ramp_rate := .val 1
    first_run := true }

/-- `pid_compute` from `test_pid.c`.  The C function takes a possibly-null
pointer and mutates the state; here the state is passed and returned
explicitly, with `none` standing for a null handle.  Returns the output and
the updated state.

The C code computes `max_integral`, the clamped integral and the filtered
derivative inside their respective `if` branches; here they are hoisted out
of the branches as pure let-bindings and the branch conditions select which
of the values are used, which changes no result (when `ki` is not above
`0.001f` the hoisted `max_integral` is simply unused, and likewise for the
derivative terms on the first run).  In particular, in the else branch of
the C `first_run` test `last_measurement` is also set to `measurement` and
`first_run` is already false, so both updates are unconditional here. -/
def pid_compute (pid : Option pid_state_t) (measurement dt : F) :
    F × Option pid_state_t :=
  match pid with
  | none => (.val 0, none)
  | some p =>
    -- if (!pid || dt <= 0.0f) return 0.0f;
    if F.le dt (.val 0) then (.val 0, some p)
    else
      let error := F.sub p.setpoint measurement
      -- Proportional
      let p_term := F.mul p.kp error
      -- Integral with anti-windup (skipped unless ki > 0.001f)
      let ki_active := F.lt (.val (1 / 1000)) p.ki
      let integral0 := F.add p.integral (F.mul error dt)
      let max_integral := F.div PID_OUTPUT_MAX p.ki
      let integral1 :=
        if F.lt max_integral integral0 then max_integral else integral0
      let integral2 :=
        if F.lt integral1 (F.neg max_integral) then F.neg max_integral
        else integral1
      let integral' := if ki_active then integral2 else p.integral
      let i_term := if ki_active then F.mul p.ki integral2 else F.val 0
      -- Derivative on measurement, low-pass filtered; skipped on first call
      let measurement_derivative :=
        F.div (F.sub measurement p.last_measurement) dt
      let alpha := F.div dt (F.add PID_DERIVATIVE_FILTER_TAU dt)
      let filtered :=
        F.add (F.mul alpha measurement_derivative)
          (F.mul (F.sub (.val 1) alpha) p.last_derivative)
      let last_derivative' := if p.first_run then F.val 0 else filtered
      let d_term :=
        if p.first_run then F.val 0 else F.mul (F.neg p.kd) last_derivative'
      -- Sum and clamp
      let output0 := F.add (F.add p_term i_term) d_term
      let output1 :=
        if F.lt PID_OUTPUT_MAX output0 then PID_OUTPUT_MAX else output0
      let output2 :=
        if F.lt output1 PID_OUTPUT_MIN then PID_OUTPUT_MIN else output1
      (output2,
        some { p with
          integral := integral'
          last_error := error
          last_measurement := measurement
          last_derivative := last_derivative'
          first_run := false
          output := output2 })

/-- The exact value of the first `pid_compute` call after `pid_init`, as the
code computes it: `clamp(Kp·e + I₁, 0, 100)` with `e = s − m₀`, where
`I₁ = clamp(Ki·e·dt, −100, 100)` when `Ki > 0.001` and `I₁ = 0` otherwise
(the integral term is skipped for small or non-positive `Ki`, and the
anti-windup clamp on the accumulator already applies on the first call). -/
def pid_first_call_formula (kp ki s m dt : ℚ) : ℚ :=
  let e := s - m
  let i1 := if 1 / 1000 < ki then clampQ (ki * (e * dt)) (-100) 100 else 0
  clampQ (kp * e + i1) 0 100

/-- The first-call output formula claimed by the spec (claim C4), stated
from the spec's words for comparison with the code:
`clamp(Kp·(s − m₀) + Ki·(s − m₀)·dt, 0, 100)`. -/
def spec_first_call_formula (kp ki s m dt : ℚ) : ℚ :=
  clampQ (kp * (s - m) + ki * (s - m) * dt) 0 100

/-! ## Status change detector
(`src/esp32/src/utils/status_change_detector.cpp`)

The `ui_state_t` snapshot type itself is declared in a UI header that is not
part of the core sources; the structure below carries exactly the fields
that `StatusChangeDetector` reads, with C floats modelled as exact
rationals, enums and unsigned integers as `Nat`, `int` as `Int` and the IP
address string as `String`.  `memcpy` of the whole snapshot becomes plain
structure assignment. -/

/-- The snapshot fields compared by `StatusChangeDetector`. -/
structure ui_state_t where
  machine_state : Nat
  heating_strategy : Nat
  is_heating : Bool
  is_brewing : Bool
  brew_temp : ℚ
  brew_setpoint : ℚ
  steam_temp : ℚ
  steam_setpoint : ℚ
  group_temp : ℚ
  pressure : ℚ
  power_watts : ℚ
  brew_time_ms : Nat
  brew_weight : ℚ
  flow_rate : ℚ
  target_weight : ℚ
  pico_connected : Bool
  wifi_connected : Bool
  mqtt_connected : Bool
  scale_connected : Bool
  cloud_connected : Bool
  water_low : Bool
  alarm_active : Bool
  alarm_code : Nat
  cleaning_reminder : Bool
  brew_count : Nat
  wifi_rssi : Int
  wifi_ap_mode : Bool
  wifi_ip : String
deriving DecidableEq

/-- `STATUS_TEMP_THRESHOLD` (0.5f °C). -/
def STATUS_TEMP_THRESHOLD : ℚ := 1 / 2

/-- `STATUS_PRESSURE_THRESHOLD` (0.1f bar). -/
def STATUS_PRESSURE_THRESHOLD : ℚ := 1 / 10

/-- `STATUS_POWER_THRESHOLD` (10.0f W). -/
def STATUS_POWER_THRESHOLD : ℚ := 10

/-- `STATUS_WEIGHT_THRESHOLD` (0.5f g). -/
def STATUS_WEIGHT_THRESHOLD : ℚ := 1 / 2

/-- `STATUS_FLOW_RATE_THRESHOLD` (0.1f mL/s). -/
def STATUS_FLOW_RATE_THRESHOLD : ℚ := 1 / 10

/-- C truncation of a rational toward zero, as in a `float`-to-`int` cast. -/
def qtrunc (q : ℚ) : Int := if q < 0 then ⌈q⌉ else ⌊q⌋

/-- `StatusChangeDetector::floatChanged`:
`fabsf(current - previous) >= threshold`. -/
def floatChanged (current previous threshold : ℚ) : Bool :=
  decide (|current - previous| ≥ threshold)

/-- The detector state: the previous snapshot mirror and the initialized
bit (the `_debug` member only controls logging and is not modelled). -/
structure StatusChangeDetector where
  previous : ui_state_t
  initialized : Bool
deriving DecidableEq

/-- The all-zero snapshot `memset(&_previous, 0, ...)` produces. -/
def ui_state_zero : ui_state_t :=
  { machine_state := 0
    heating_strategy := 0
    is_heating := false
    is_brewing := false
    brew_temp := 0
    brew_setpoint := 0
    steam_temp := 0
    steam_setpoint := 0
    group_temp := 0
    pressure := 0
    power_watts := 0
    brew_time_ms := 0
    brew_weight := 0
    flow_rate := 0
    target_weight := 0
    pico_connected := false
    wifi_connected := false
    mqtt_connected := false
    scale_connected := false
    cloud_connected := false
    water_low := false
    alarm_active := false
    alarm_code := 0
    cleaning_reminder := false
    brew_count := 0
    wifi_rssi := 0
    wifi_ap_mode := false
    wifi_ip := "" }

/-- The detector as constructed (or after `reset()`): not initialized,
previous snapshot zeroed. -/
def detector_init : StatusChangeDetector :=
  { previous := ui_state_zero, initialized := false }

/-- `StatusChangeDetector::hasChanged`.  Returns the C return value and the
updated detector state.  The `changed` flag is the disjunction of the same
field checks, in the same order, as the C sequence of `if` statements (the
`changedField` string only feeds debug logging and is not modelled). -/
def hasChanged (d : StatusChangeDetector) (current : ui_state_t) :
    Bool × StatusChangeDetector :=
  if !d.initialized then
    (true, { d with previous := current, initialized := true })
  else
    let p := d.previous
    let changed :=
      decide (current.machine_state ≠ p.machine_state) ||
      decide (current.heating_strategy ≠ p.heating_strategy) ||
      decide (current.is_heating ≠ p.is_heating) ||
      decide (current.is_brewing ≠ p.is_brewing) ||
      floatChanged current.brew_temp p.brew_temp STATUS_TEMP_THRESHOLD ||
      floatChanged current.brew_setpoint p.brew_setpoint STATUS_TEMP_THRESHOLD ||
      floatChanged current.steam_temp p.steam_temp STATUS_TEMP_THRESHOLD ||
      floatChanged current.steam_setpoint p.steam_setpoint STATUS_TEMP_THRESHOLD ||
      floatChanged current.group_temp p.group_temp STATUS_TEMP_THRESHOLD ||
      floatChanged current.pressure p.pressure STATUS_PRESSURE_THRESHOLD ||
      decide ((qtrunc current.power_watts - qtrunc p.power_watts).natAbs ≥ 10) ||
      (current.is_brewing && decide (current.brew_time_ms ≠ p.brew_time_ms)) ||
      floatChanged current.brew_weight p.brew_weight STATUS_WEIGHT_THRESHOLD ||
      floatChanged current.flow_rate p.flow_rate STATUS_FLOW_RATE_THRESHOLD ||
      floatChanged current.target_weight p.target_weight STATUS_WEIGHT_THRESHOLD ||
      decide (current.pico_connected ≠ p.pico_connected) ||
      decide (current.wifi_connected ≠ p.wifi_connected) ||
      decide (current.mqtt_connected ≠ p.mqtt_connected) ||
      decide (current.scale_connected ≠ p.scale_connected) ||
      decide (current.cloud_connected ≠ p.cloud_connected) ||
      decide (current.water_low ≠ p.water_low) ||
      decide (current.alarm_active ≠ p.alarm_active) ||
      decide (current.alarm_code ≠ p.alarm_code) ||
      decide (current.cleaning_reminder ≠ p.cleaning_reminder) ||
      decide (current.brew_count ≠ p.brew_count) ||
      decide ((current.wifi_rssi - p.wifi_rssi).natAbs ≥ 10) ||
      decide (current.wifi_ap_mode ≠ p.wifi_ap_mode) ||
      decide (current.wifi_ip ≠ p.wifi_ip)
    if changed then (true, { d with previous := current })
    else (false, d)

/-! ## MQTT power meter (`src/esp32/src/power_meter/mqtt_power_meter.cpp`)

JSON documents (as produced by ArduinoJson's `deserializeJson`) are
modelled as a small inductive type; numbers are exact rationals, which
covers both integer and float JSON numerals (the code accepts either via
`is<float>() || is<int>()`, and ArduinoJson's `is<float>()` itself is true
for any numeral).  A payload that fails JSON deserialization is modelled as
`none`.  The C++ member functions mutate `this`; here they take and return
the meter state explicitly. -/

/-- A parsed JSON document. -/
inductive Json where
  | num (q : ℚ)
  | str (s : String)
  | boolean (b : Bool)
  | obj (fields : List (String × Json))
  | arr (items : List Json)

/-- `doc[key]`: look a key up in a JSON object (null otherwise). -/
def Json.get : Json → String → Option Json
  | .obj fields, key => fields.lookup key
  | _, _ => none

/-- `is<float>()` (also satisfied by integer numerals): extract a numeral. -/
def Json.asNum : Option Json → Option ℚ
  | some (.num q) => some q
  | _ => none

/-- `PowerMeterReading` from `power_meter.h`. -/
structure PowerMeterReading where
  voltage : ℚ
  current : ℚ
  power : ℚ
  energy_import : ℚ
  energy_export : ℚ
  frequency : ℚ
  power_factor : ℚ
  timestamp : Nat
  valid : Bool
deriving DecidableEq

/-- The zeroed reading produced by `memset(&_lastReading, 0, ...)`. -/
def PowerMeterReading.zero : PowerMeterReading :=
  { voltage := 0, current := 0, power := 0, energy_import := 0,
    energy_export := 0, frequency := 0, power_factor := 0,
    timestamp := 0, valid := false }

/-- `MqttFormat` (from the meter's header): the payload dialect. -/
inductive MqttFormat where
  | shelly
  | tasmota
  | generic
  | auto
deriving DecidableEq

/-- Modelled from the spec: `STALE_THRESHOLD_MS` is declared in
`mqtt_power_meter.h`, which is not among the core sources; the spec reports
the staleness threshold as a constant between 30 s and 120 s across
revisions.  The value chosen here does not affect any claim below. -/
def STALE_THRESHOLD_MS : Nat := 60000

/-- The `MQTTPowerMeter` state (the `_topic` string and `_debug`-style
logging state do not affect any modelled behaviour; the function-static
`wasConnected` in `onMqttData` only gates log messages and is likewise not
modelled). -/
structure MQTTPowerMeter where
  format : MqttFormat
  lastReading : PowerMeterReading
  lastUpdateTime : Nat
  hasData : Bool
  deviceOnline : Bool
  lastError : String
  jsonPathPower : String
  jsonPathVoltage : String
  jsonPathCurrent : String
  jsonPathEnergy : String
deriving DecidableEq

/-- `MQTTPowerMeter::parseShelly`.  Returns the C `bool` result and the
updated meter. -/
def parseShelly (m : MQTTPowerMeter) (doc : Json) : Bool × MQTTPowerMeter :=
  match doc.get "meters" with
  | some (.arr meters) =>
    match meters with
    | [] => (false, m)
    | meter :: _ =>
      let r0 := m.lastReading
      let r1 :=
        match Json.asNum (meter.get "power") with
        | some q => { r0 with power := q }
        | none => r0
      let r2 :=
        match Json.asNum (meter.get "total") with
        | some q => { r1 with energy_import := q / 60 / 1000 }
        | none => r1
      -- Shelly doesn't provide voltage/current; assume 230 V, infer current
      let r3 := { r2 with voltage := 230 }
      let r4 :=
        if 0 < r3.power ∧ 0 < r3.voltage then
          { r3 with current := r3.power / r3.voltage }
        else r3
      (true, { m with lastReading := r4 })
  | _ => (false, m)

/-- `MQTTPowerMeter::parseTasmota`. -/
def parseTasmota (m : MQTTPowerMeter) (doc : Json) : Bool × MQTTPowerMeter :=
  match doc.get "ENERGY" with
  | some (.obj efields) =>
    let energy := Json.obj efields
    let r0 := m.lastReading
    let r1 :=
      match Json.asNum (energy.get "Power") with
      | some q => { r0 with power := q }
      | none => r0
    let r2 :=
      match Json.asNum (energy.get "Voltage") with
      | some q => { r1 with voltage := q }
      | none => r1
    let r3 :=
      match Json.asNum (energy.get "Current") with
      | some q => { r2 with current := q }
      | none => r2
    let r4 :=
      match Json.asNum (energy.get "Total") with
      | some q => { r3 with energy_import := q }
      | none => r3
    let r5 :=
      match Json.asNum (energy.get "Factor") with
      | some q => { r4 with power_factor := q }
      | none => r4
    let r6 := { r5 with frequency := 50 }  -- Assume 50Hz
    (true, { m with lastReading := r6 })
  | _ => (false, m)

/-- `MQTTPowerMeter::extractJsonValue` for one configured path; returns
whether the value was found together with the extracted value. -/
def extractJsonValue (doc : Json) (path : String) : Option ℚ :=
  if path.length = 0 then none
  else Json.asNum (doc.get path)

/-- `MQTTPowerMeter::parseGeneric`. -/
def parseGeneric (m : MQTTPowerMeter) (doc : Json) : Bool × MQTTPowerMeter :=
  let r0 := m.lastReading
  let p := if m.jsonPathPower.length ≠ 0 then extractJsonValue doc m.jsonPathPower else none
  let r1 := match p with | some q => { r0 with power := q } | none => r0
  let v := if m.jsonPathVoltage.length ≠ 0 then extractJsonValue doc m.jsonPathVoltage else none
  let r2 := match v with | some q => { r1 with voltage := q } | none => r1
  let c := if m.jsonPathCurrent.length ≠ 0 then extractJsonValue doc m.jsonPathCurrent else none
  let r3 := match c with | some q => { r2 with current := q } | none => r2
  let e := if m.jsonPathEnergy.length ≠ 0 then extractJsonValue doc m.jsonPathEnergy else none
  let r4 := match e with | some q => { r3 with energy_import := q } | none => r3
  let success := p.isSome || v.isSome || c.isSome || e.isSome
  (success, { m with lastReading := r4 })

/-- `MQTTPowerMeter::tryAutoParse`: try Shelly, then Tasmota, then simple
top-level fields; latch the detected format on success. -/
def tryAutoParse (m : MQTTPowerMeter) (doc : Json) : Bool × MQTTPowerMeter :=
  let sh := parseShelly m doc
  if sh.1 then (true, { sh.2 with format := .shelly })
  else
    let ta := parseTasmota sh.2 doc
    if ta.1 then (true, { ta.2 with format := .tasmota })
    else
      let m2 := ta.2
      let r0 := m2.lastReading
      let p := Json.asNum (doc.get "power")
      let r1 := match p with | some q => { r0 with power := q } | none => r0
      let v := Json.asNum (doc.get "voltage")
      let r2 := match v with | some q => { r1 with voltage := q } | none => r1
      let c := Json.asNum (doc.get "current")
      let r3 := match c with | some q => { r2 with current := q } | none => r2
      let e := Json.asNum (doc.get "energy")
      let r4 := match e with | some q => { r3 with energy_import := q } | none => r3
      let found := p.isSome || v.isSome || c.isSome || e.isSome
      (found, { m2 with lastReading := r4 })

/-- The `switch (_format)` dispatch in `onMqttData(JsonDocument&)`. -/
def parseDispatch (m : MQTTPowerMeter) (doc : Json) : Bool × MQTTPowerMeter :=
  match m.format with
  | .shelly => parseShelly m doc
  | .tasmota => parseTasmota m doc
  | .generic => parseGeneric m doc
  | .auto => tryAutoParse m doc

/-- `MQTTPowerMeter::onMqttData`: `none` stands for a payload on which
`deserializeJson` failed; `now` is the value of `millis()`. -/
def onMqttData (m : MQTTPowerMeter) (payload : Option Json) (now : Nat) :
    MQTTPowerMeter :=
  match payload with
  | none => { m with lastError := "JSON parse error" }
  | some doc =>
    let pr := parseDispatch m doc
    if pr.1 then
      { pr.2 with
        lastReading := { pr.2.lastReading with timestamp := now, valid := true }
        lastUpdateTime := now
        hasData := true
        lastError := "" }
    else
      { pr.2 with lastError := "Failed to parse MQTT data" }

/-- `MQTTPowerMeter::isStale` at time `now` (uint32 wraparound of the
`millis()` difference is not modelled; `now` is taken at or after the last
update). -/
def MQTTPowerMeter.isStale (m : MQTTPowerMeter) (now : Nat) : Bool :=
  decide (now - m.lastUpdateTime > STALE_THRESHOLD_MS)

/-- `MQTTPowerMeter::isConnected` at time `now`. -/
def MQTTPowerMeter.isConnected (m : MQTTPowerMeter) (now : Nat) : Bool :=
  m.hasData && (m.deviceOnline || !(m.isStale now))

/-- `MQTTPowerMeter::read` at time `now`: the C version copies
`_lastReading` into the out-parameter and returns true iff connected. -/
def MQTTPowerMeter.read (m : MQTTPowerMeter) (now : Nat) :
    Option PowerMeterReading :=
  if m.isConnected now then some m.lastReading else none

/-- The S5 auto-detect payload from the spec:
`{"ENERGY":{"Power":1234,"Voltage":231,"Current":5.36,"Total":12.345,"Factor":0.98}}`. -/
def tasmotaS5payload : Json :=
  .obj [("ENERGY", .obj
    [("Power", .num 1234), ("Voltage", .num 231),
     ("Current", .num (536 / 100)), ("Total", .num (12345 / 1000)),
     ("Factor", .num (98 / 100))])]

/-- A freshly constructed auto-detect meter with no configured generic
paths (`MQTTPowerMeter(topic, "auto")`). -/
def meter_auto_empty : MQTTPowerMeter :=
  { format := .auto, lastReading := PowerMeterReading.zero,
    lastUpdateTime := 0, hasData := false, deviceOnline := true,
    lastError := "", jsonPathPower := "", jsonPathVoltage := "",
    jsonPathCurrent := "", jsonPathEnergy := "" }

/-! ## Sensor fault tracking (`src/pico/src/sensors.c`)

Each sensor channel keeps a fault flag and a consecutive-failure counter
(`g_brew_ntc_fault` / `g_brew_ntc_error_count` and friends).  The
machine-type and pin-configuration guards return early without touching
this state, so the embedding models the validation tail of each read
function for a configured channel: the raw converted sample comes in, the
fault flag and counter are updated, and the error report (the rate-gated
ERROR log line) is emitted or not.  Counters are `uint16_t`, hence the
explicit reduction modulo `2 ^ 16`. -/

/-- `SENSOR_ERROR_THRESHOLD` (10) from `sensors.c`: "Report error after 10
consecutive failures". -/
def SENSOR_ERROR_THRESHOLD : Nat := 10

/-- Per-channel fault tracking state. -/
structure sensor_channel_state where
  fault : Bool
  error_count : Nat
deriving DecidableEq

/-- Result of one channel read: the value handed to the filters, the new
fault-tracking state, and whether the consecutive-failure ERROR report was
emitted on this sample. -/
structure sensor_read_result (α : Type) where
  value : α
  state : sensor_channel_state
  reported : Bool
deriving DecidableEq

/-- Modelled from the spec: `sensor_validate_temp` lives in
`sensor_utils.c`, which is not among the core sources.  Per the spec (each
channel has a valid physical range) and the unit tests in
`test_sensor_utils.c` (bounds inclusive, NaN and infinities invalid), a
temperature is valid iff it is a finite value within
`[min_temp, max_temp]`. -/
def sensor_validate_temp (temp_c : F) (min_temp max_temp : ℚ) : Bool :=
  match temp_c with
  | .nan => false
  | .val t => decide (min_temp ≤ t ∧ t ≤ max_temp)

/-- The validation tail of `read_brew_ntc` (`sensors.c` lines 144-166); the
steam NTC tail (lines 217-239) is textually identical apart from the
globals it touches, so this single function embeds both channels.  An
invalid sample sets the fault flag, bumps the counter and returns NAN; the
ERROR report is emitted only when the incremented counter is `>= 10 && ==
10`, i.e. exactly at the threshold.  A valid sample clears both. -/
def ntc_validate_step (st : sensor_channel_state) (temp_c : F) :
    sensor_read_result F :=
  if !(sensor_validate_temp temp_c (-10) 200) then
    let count := (st.error_count + 1) % 2 ^ 16
    { value := F.nan
      state := { fault := true, error_count := count }
      reported := decide (SENSOR_ERROR_THRESHOLD ≤ count ∧
        count = SENSOR_ERROR_THRESHOLD) }
  else
    { value := temp_c
      state := { fault := false, error_count := 0 }
      reported := false }

/-- The body of `read_pressure` (`sensors.c` lines 255-349) for a
configured pressure channel: `voltage` is the ADC voltage and `v5adc` the
5V-rail monitor ADC voltage when that channel is configured.  Either
out-of-range check sets the fault flag, bumps the shared counter, emits
the report only at exactly the threshold, and returns 0 bar. -/
def read_pressure_step (st : sensor_channel_state) (voltage : ℚ)
    (v5adc : Option ℚ) : sensor_read_result ℚ :=
  if voltage < 1 / 5 ∨ voltage > 3 then
    let count := (st.error_count + 1) % 2 ^ 16
    { value := 0
      state := { fault := true, error_count := count }
      reported := decide (SENSOR_ERROR_THRESHOLD ≤ count ∧
        count = SENSOR_ERROR_THRESHOLD) }
  else
    let v_transducer_nominal := voltage / (641 / 1000)
    let v_transducer :=
      match v5adc with
      | some v_adc_5v =>
        let v_5v_actual := v_adc_5v * (2786 / 1000)
        if 4 ≤ v_5v_actual ∧ v_5v_actual ≤ 11 / 2 then
          v_transducer_nominal * (5 / v_5v_actual)
        else v_transducer_nominal
      | none => v_transducer_nominal
    if v_transducer < 3 / 10 ∨ v_transducer > 47 / 10 then
      let count := (st.error_count + 1) % 2 ^ 16
      { value := 0
        state := { fault := true, error_count := count }
        reported := decide (SENSOR_ERROR_THRESHOLD ≤ count ∧
          count = SENSOR_ERROR_THRESHOLD) }
    else
      let pressure_bar := (v_transducer - 1 / 2) * 16 / 4
      let p1 := if pressure_bar < 0 then 0 else pressure_bar
      let p2 := if p1 > 16 then 16 else p1
      { value := p2
        state := { fault := false, error_count := 0 }
        reported := false }

/-! ## Serial bootloader (`src/pico/src/bootloader.c`)

The firmware-reception loop of `bootloader_receive_firmware`, the
post-reception validation, and the RAM-resident `copy_firmware_to_main`
are embedded over an explicit state.  Flash is a byte map `Nat → Nat`
indexed by flash offset, together with a log of the erase/program
operations issued (an erase sets a sector to `0xFF`, a program writes a
page); the flash primitives are assumed to succeed (their hardware-failure
returns are not modelled).  The byte-level UART framing of
`receive_chunk_header` / `receive_chunk_data` is abstracted into a list of
already-delimited frames: `receive_chunk_header` reports an end-of-stream
frame (`0xAA 0x55` magic) as a chunk with sequence number `0xFFFFFFFF`, so
a frame here is a sequence number, a payload and the transmitted XOR
checksum byte.  An exhausted frame list models a header timeout; real time,
watchdog feeding and the UART drain loops have no modelled effect.  The
UART log keeps the protocol-relevant bytes the Pico sends (per-chunk acks,
error responses, the final three-byte ack); the debug trace and marker
bytes are pure diagnostics and are not logged.  `g_chunk_count` and
`g_received_size` are `uint32_t`; their wraparound would need more than
`2 ^ 24` accepted chunks, which the 60 s overall timeout makes unreachable,
so they are modelled as plain `Nat`. -/

/-- `BOOTLOADER_CHUNK_MAX_SIZE` (256). -/
def BOOTLOADER_CHUNK_MAX_SIZE : Nat := 256

/-- `FLASH_TARGET_OFFSET` (1536 KiB): the staging region base. -/
def FLASH_TARGET_OFFSET : Nat := 1536 * 1024

/-- `FLASH_MAIN_OFFSET` (0): the active region base. -/
def FLASH_MAIN_OFFSET : Nat := 0

/-- `FLASH_SECTOR_SIZE` (4096), a hardware constant of the RP2040/RP2350. -/
def FLASH_SECTOR_SIZE : Nat := 4096

/-- `FLASH_PAGE_SIZE` (256), a hardware constant of the RP2040/RP2350. -/
def FLASH_PAGE_SIZE : Nat := 256

/-- `FIRMWARE_PRELOAD_BUFFER_SIZE` (128 KiB). -/
def FIRMWARE_PRELOAD_BUFFER_SIZE : Nat := 128 * 1024

/-- Modelled from the spec: the numeric values of `bootloader_result_t`'s
error codes live in `bootloader.h`, which is not among the core sources.
The spec's S4 scenario fixes the checksum error response as `0xFF 0x03`;
the remaining codes only need to be distinct. -/
def BOOTLOADER_ERROR_TIMEOUT : Nat := 1

/-- See `BOOTLOADER_ERROR_TIMEOUT`. -/
def BOOTLOADER_ERROR_INVALID_SIZE : Nat := 2

/-- See `BOOTLOADER_ERROR_TIMEOUT`; the spec documents this one as 3. -/
def BOOTLOADER_ERROR_CHECKSUM : Nat := 3

/-- See `BOOTLOADER_ERROR_TIMEOUT`. -/
def BOOTLOADER_ERROR_FLASH_WRITE : Nat := 5

/-- XOR of a list of bytes, as `receive_chunk_data` computes it. -/
def xor8 (bytes : List Nat) : Nat := bytes.foldl (fun a b => a ^^^ b) 0

/-- One round of the bit loop in `crc32_calculate` (and the identical
inline loops): shift right, conditionally XOR the reflected CRC-32
polynomial `0xEDB88320`. -/
def crc32_round (crc : Nat) : Nat :=
  if crc % 2 = 1 then (crc / 2) ^^^ 0xEDB88320 else crc / 2

/-- `n` rounds of the CRC bit loop. -/
def crc32_rounds : Nat → Nat → Nat
  | 0, crc => crc
  | n + 1, crc => crc32_rounds n (crc32_round crc)

/-- Fold one byte into the running CRC: `crc ^= byte` then 8 bit rounds. -/
def crc32_byte (crc b : Nat) : Nat := crc32_rounds 8 (crc ^^^ b)

/-- `crc32_calculate`: running CRC from `0xFFFFFFFF` over the data, then
complemented (on 32 bits). -/
def crc32_calculate (data : List Nat) : Nat :=
  (data.foldl crc32_byte 0xFFFFFFFF) ^^^ 0xFFFFFFFF

/-- One parsed bootloader frame as `receive_chunk_header` +
`receive_chunk_data` deliver it: the 32-bit sequence number (the
`0xAA 0x55` end magic is delivered as `0xFFFFFFFF`), the payload bytes and
the transmitted XOR checksum byte. -/
structure BootChunk where
  seq : Nat
  payload : List Nat
  csum : Nat
deriving DecidableEq

/-- One logged flash operation (an erase or a page program): its flash
offset and length in bytes. -/
structure FWrite where
  offset : Nat
  size : Nat
deriving DecidableEq

/-- Write a block of bytes into the flash byte map. -/
def flashWriteBytes (f : Nat → Nat) (off : Nat) (data : List Nat) :
    Nat → Nat :=
  fun a => if off ≤ a ∧ a < off + data.length then data.getD (a - off) 0 else f a

/-- The state of `bootloader_receive_firmware`: flash and its operation
log, the UART protocol bytes sent, the globals (`g_chunk_count`,
`g_received_size`), the running CRC, and the page-buffer bookkeeping.
`data` and `accepted_seqs` are ghost observations (the concatenated
payloads of the accepted chunks and their sequence numbers); they influence
nothing. -/
structure RecvState where
  flash : Nat → Nat
  writes : List FWrite
  uart : List Nat
  chunk_count : Nat
  received_size : Nat
  running_crc : Nat
  page_buffer : List Nat
  current_page_start : Nat
  current_sector : Nat
  sector_erased : Bool
  data : List Nat
  accepted_seqs : List Nat

/-- `flash_bootloader_erase`: erase `size` bytes at `off` to `0xFF`. -/
def flash_bootloader_erase (st : RecvState) (off size : Nat) : RecvState :=
  { st with
    flash := flashWriteBytes st.flash off (List.replicate size 0xFF)
    writes := st.writes ++ [{ offset := off, size := size }] }

/-- `flash_bootloader_program`: program `data` at `off`. -/
def flash_bootloader_program (st : RecvState) (off : Nat) (data : List Nat) :
    RecvState :=
  { st with
    flash := flashWriteBytes st.flash off data
    writes := st.writes ++ [{ offset := off, size := data.length }] }

/-- Flush a full page buffer to staging flash (`bootloader.c` lines
1043-1072): erase the containing sector if it is not the currently erased
one, program the page, advance the page pointer.  `page_buffer_offset`
is `page_buffer.length` here (the C array's bytes beyond the offset are
never programmed while the buffer is partial). -/
def flush_page (st : RecvState) : RecvState :=
  let sect_start :=
    st.current_page_start - st.current_page_start % FLASH_SECTOR_SIZE
  let st1 :=
    if !st.sector_erased || decide (sect_start ≠ st.current_sector) then
      { flash_bootloader_erase st sect_start FLASH_SECTOR_SIZE with
        sector_erased := true
        current_sector := sect_start }
    else st
  let st2 := flash_bootloader_program st1 st.current_page_start st.page_buffer
  { st2 with
    current_page_start := st.current_page_start + FLASH_PAGE_SIZE
    page_buffer := [] }

/-- The inner `while (offset < chunk_size)` copy loop (`bootloader.c`
lines 1035-1074).  The C code `memcpy`s blocks of
`min(chunk_size - offset, FLASH_PAGE_SIZE - page_buffer_offset)` bytes and
flushes whenever the buffer fills; appending the same bytes one at a time
produces exactly the same buffer contents at exactly the same flush
points (the buffer reaches `FLASH_PAGE_SIZE` precisely when a block copy
would have filled it), and keeps the recursion structural. -/
def fill_pages : List Nat → RecvState → RecvState
  | [], st => st
  | b :: rest, st =>
    let st1 := { st with page_buffer := st.page_buffer ++ [b] }
    let st2 :=
      if FLASH_PAGE_SIZE ≤ st1.page_buffer.length then flush_page st1 else st1
    fill_pages rest st2

/-- The accept branch of the receive loop for a validated chunk: fold the
payload into the running CRC, append it to the page buffer (flushing full
pages), bump `g_received_size` and `g_chunk_count`, send the one-byte ack
`0xAA`. -/
def accept_chunk (st : RecvState) (c : BootChunk) : RecvState :=
  let st1 := { st with running_crc := c.payload.foldl crc32_byte st.running_crc }
  let st2 := fill_pages c.payload st1
  { st2 with
    received_size := st2.received_size + c.payload.length
    chunk_count := st2.chunk_count + 1
    uart := st2.uart ++ [0xAA]
    data := st2.data ++ c.payload
    accepted_seqs := st2.accepted_seqs ++ [c.seq] }

/-- Outcome of the chunk-reception loop: ended by an end-of-stream frame,
or aborted with a `bootloader_result_t` error code (after sending the
2-byte error response). -/
inductive LoopResult where
  | ended (st : RecvState)
  | aborted (err : Nat) (st : RecvState)

/-- The `while (true)` chunk-reception loop (`bootloader.c` lines
969-1084).  An exhausted frame list is a `receive_chunk_header` timeout.
A frame with sequence `0xFFFFFFFF` (either end-of-stream dialect) ends the
loop; a bad length or unexpected sequence number aborts with
`BOOTLOADER_ERROR_INVALID_SIZE`; a bad XOR checksum aborts with
`BOOTLOADER_ERROR_CHECKSUM`; otherwise the chunk is accepted. -/
def process_frames : List BootChunk → RecvState → LoopResult
  | [], st =>
    .aborted BOOTLOADER_ERROR_TIMEOUT
      { st with uart := st.uart ++ [0xFF, BOOTLOADER_ERROR_TIMEOUT] }
  | c :: rest, st =>
    if c.seq = 0xFFFFFFFF then .ended st
    else if c.payload.length = 0 ∨ BOOTLOADER_CHUNK_MAX_SIZE < c.payload.length
        ∨ c.seq ≠ st.chunk_count then
      .aborted BOOTLOADER_ERROR_INVALID_SIZE
        { st with uart := st.uart ++ [0xFF, BOOTLOADER_ERROR_INVALID_SIZE] }
    else if xor8 c.payload ≠ c.csum then
      .aborted BOOTLOADER_ERROR_CHECKSUM
        { st with uart := st.uart ++ [0xFF, BOOTLOADER_ERROR_CHECKSUM] }
    else process_frames rest (accept_chunk st c)

/-- The final partial-page flush after the loop (`bootloader.c` lines
1096-1121): pad the pending bytes with `0xFF` to a full page and program
it (the C code does not update `sector_erased` / `current_sector` here). -/
def final_page_flush (st : RecvState) : RecvState :=
  if st.page_buffer.length ≠ 0 then
    let sect_start :=
      st.current_page_start - st.current_page_start % FLASH_SECTOR_SIZE
    let stE :=
      if !st.sector_erased || decide (sect_start ≠ st.current_sector) then
        flash_bootloader_erase st sect_start FLASH_SECTOR_SIZE
      else st
    let padded :=
      st.page_buffer ++
        List.replicate (FLASH_PAGE_SIZE - st.page_buffer.length) 0xFF
    flash_bootloader_program stE st.current_page_start padded
  else st

/-- Read the little-endian 32-bit word at flash offset `off` (each cell is
a byte). -/
def le32_at (f : Nat → Nat) (off : Nat) : Nat :=
  f off % 256 + 256 * (f (off + 1) % 256) + 65536 * (f (off + 2) % 256) +
    16777216 * (f (off + 3) % 256)

/-- The ARM vector-table check on the staged image (`bootloader.c` lines
1149-1152): initial SP high byte `0x20`, initial PC high byte `0x10`. -/
def vector_check (f : Nat → Nat) : Bool :=
  decide (le32_at f FLASH_TARGET_OFFSET / 16777216 % 256 = 0x20) &&
  decide (le32_at f (FLASH_TARGET_OFFSET + 4) / 16777216 % 256 = 0x10)

/-- `verify_staging_area`: recompute the CRC-32 over the staged bytes read
back from flash and compare it with the expected CRC. -/
def verify_staging_area (f : Nat → Nat) (size expected : Nat) : Bool :=
  decide ((((List.range size).foldl
      (fun c i => crc32_byte c (f (FLASH_TARGET_OFFSET + i)))
      0xFFFFFFFF) ^^^ 0xFFFFFFFF) = expected)

/-- `copy_firmware_to_main` (`bootloader.c` lines 519-848): validate the
size, preload the staged image into RAM padded with `0xFF` to a sector
multiple, then erase and program the active region sector by sector.
`none` models the validation-failure early returns (no copy performed); the
in-RAM vector re-check only warns and continues, so it has no modelled
effect.  On completion the device resets. -/
def copy_firmware_to_main (st : RecvState) (firmware_size : Nat) :
    Option RecvState :=
  if firmware_size = 0 ∨ 1024 * 1024 < firmware_size then none
  else
    let sector_count :=
      (firmware_size + FLASH_SECTOR_SIZE - 1) / FLASH_SECTOR_SIZE
    if sector_count = 0 ∨ 256 < sector_count then none
    else if FIRMWARE_PRELOAD_BUFFER_SIZE < firmware_size then none
    else
      let padded_size := sector_count * FLASH_SECTOR_SIZE
      let preload := (List.range padded_size).map
        (fun k => if k < firmware_size then st.flash (FLASH_TARGET_OFFSET + k)
          else 0xFF)
      some ((List.range sector_count).foldl
        (fun s i =>
          let offset := i * FLASH_SECTOR_SIZE
          let sector_data := (preload.drop offset).take FLASH_SECTOR_SIZE
          let s1 := flash_bootloader_erase s (FLASH_MAIN_OFFSET + offset)
            FLASH_SECTOR_SIZE
          flash_bootloader_program s1 (FLASH_MAIN_OFFSET + offset) sector_data)
        st)

/-- Final outcome of an OTA attempt: an error return of
`bootloader_receive_firmware` (the caller then drains and resets), or the
hardware reset at the end of a completed flash copy. -/
inductive BootFinal where
  | err (code : Nat) (st : RecvState)
  | reset (st : RecvState)

/-- The post-loop phases of `bootloader_receive_firmware` (lines
1096-1398): final page flush, vector-table check, optional expected-CRC
packet (`crcPacket`; `none` models its 2 s timeout), read-back
verification, size sanity checks, final three-byte ack, and the flash
copy.  A running-CRC mismatch alone does not abort — the code explicitly
falls through to `verify_staging_area`, the read-back being the source of
truth. -/
def finish_reception (st : RecvState) (crcPacket : Option Nat) : BootFinal :=
  let st1 := final_page_flush st
  if !(vector_check st1.flash) then
    .err BOOTLOADER_ERROR_INVALID_SIZE
      { st1 with
        uart := st1.uart ++
          [0xBF, le32_at st1.flash FLASH_TARGET_OFFSET / 16777216 % 256,
            le32_at st1.flash (FLASH_TARGET_OFFSET + 4) / 16777216 % 256] }
  else
    let verified :=
      match crcPacket with
      | some expected => verify_staging_area st1.flash st1.received_size expected
      | none => true
    if !verified then .err BOOTLOADER_ERROR_CHECKSUM st1
    else if st1.received_size = 0 ∨ 1024 * 1024 < st1.received_size then
      .err BOOTLOADER_ERROR_INVALID_SIZE st1
    else if (st1.received_size + FLASH_SECTOR_SIZE - 1) / FLASH_SECTOR_SIZE = 0
        ∨ 256 < (st1.received_size + FLASH_SECTOR_SIZE - 1) / FLASH_SECTOR_SIZE then
      .err BOOTLOADER_ERROR_INVALID_SIZE st1
    else
      let st2 := { st1 with uart := st1.uart ++ [0xAA, 0x55, 0x00] }
      match copy_firmware_to_main st2 st2.received_size with
      | some st3 => .reset st3
      | none => .err BOOTLOADER_ERROR_FLASH_WRITE st2

/-- The input of one OTA attempt: the parsed frames, the optional expected
CRC-32 packet, and the initial flash contents. -/
structure BootInput where
  frames : List BootChunk
  crcPacket : Option Nat
  flash0 : Nat → Nat

/-- The initial reception state (`bootloader.c` lines 926-960). -/
def boot_init_state (inp : BootInput) : RecvState :=
  { flash := inp.flash0
    writes := []
    uart := []
    chunk_count := 0
    received_size := 0
    running_crc := 0xFFFFFFFF
    page_buffer := []
    current_page_start := FLASH_TARGET_OFFSET
    current_sector := FLASH_TARGET_OFFSET / FLASH_SECTOR_SIZE
    sector_erased := false
    data := []
    accepted_seqs := [] }

/-- `bootloader_receive_firmware`, whole-run model. -/
def bootloader_receive_firmware (inp : BootInput) : BootFinal :=
  match process_frames inp.frames (boot_init_state inp) with
  | .aborted e st => .err e st
  | .ended st => finish_reception st inp.crcPacket

/-- The reception state when the chunk loop finishes or aborts. -/
def reception_state (inp : BootInput) : RecvState :=
  match process_frames inp.frames (boot_init_state inp) with
  | .aborted _ st => st
  | .ended st => st

/-- The state after the chunk loop and the final partial-page flush — the
staging flash the vector check and read-back verification look at. -/
def post_reception_state (inp : BootInput) : RecvState :=
  match process_frames inp.frames (boot_init_state inp) with
  | .aborted _ st => st
  | .ended st => final_page_flush st

/-- The state carried by the final outcome. -/
def boot_outcome_state : BootFinal → RecvState
  | .err _ st => st
  | .reset st => st

/-- The error code of the final outcome (`none` means the copy completed
and the device reset). -/
def boot_result_code : BootFinal → Option Nat
  | .err e _ => some e
  | .reset _ => none

/-- No logged flash operation touches the active region: every erase and
program lies at or above the staging base. -/
def active_region_untouched (st : RecvState) : Prop :=
  ∀ w ∈ st.writes, FLASH_TARGET_OFFSET ≤ w.offset

/-! ## Bootloader invariants and concrete reception inputs -/

/-- The staging-content invariant. -/
structure StagInv (st : RecvState) (D : List Nat) : Prop where
  le_len : st.page_buffer.length ≤ D.length
  buf_eq : st.page_buffer = D.drop (D.length - st.page_buffer.length)
  buf_lt : st.page_buffer.length < FLASH_PAGE_SIZE
  pos : st.current_page_start =
    FLASH_TARGET_OFFSET + (D.length - st.page_buffer.length)
  flashed : ∀ i < D.length - st.page_buffer.length,
    st.flash (FLASH_TARGET_OFFSET + i) = D.getD i 0
  aligned : FLASH_PAGE_SIZE ∣ D.length - st.page_buffer.length
  fresh : st.sector_erased = false → D.length = st.page_buffer.length
  seeded : st.sector_erased = true →
    st.current_sector = (st.current_page_start - FLASH_PAGE_SIZE) -
      (st.current_page_start - FLASH_PAGE_SIZE) % FLASH_SECTOR_SIZE ∧
    FLASH_PAGE_SIZE ≤ D.length - st.page_buffer.length

/-- The carried state of a loop outcome. -/
def loop_state : LoopResult → RecvState
  | .ended st => st
  | .aborted _ st => st

/-- The receive-loop invariant: the staging flash mirrors the accepted
bytes, no logged flash operation is below the staging base, the byte
counter and running CRC-32 track the accepted bytes, and the accepted
sequence numbers are exactly `0, 1, …, chunk_count - 1`. -/
structure LoopInv (st : RecvState) : Prop where
  stag : StagInv st st.data
  untouched : active_region_untouched st
  size : st.received_size = st.data.length
  crc : st.running_crc = st.data.foldl crc32_byte 0xFFFFFFFF
  seqs : st.accepted_seqs = List.range st.chunk_count

/-- A chunk with the expected sequence number 0 but a wrong XOR checksum. -/
def cexChunk : BootChunk := { seq := 0, payload := [1, 2, 3], csum := 99 }

/-- A reception consisting of the single checksum-corrupt chunk. -/
def cexInput : BootInput :=
  { frames := [cexChunk], crcPacket := none, flash0 := fun _ => 0 }

/-- A reception with no frames and an expected-CRC packet. -/
def emptyInput : BootInput :=
  { frames := [], crcPacket := some 5, flash0 := fun _ => 0 }

/-- A chunk with an out-of-sequence number. -/
def wChunkBad : BootChunk := { seq := 7, payload := [1], csum := 1 }

/-- A valid first chunk. -/
def wChunkGood : BootChunk := { seq := 0, payload := [1], csum := 1 }

/-! # Theorems -/

/-! ## Helper lemmas about `F` -/

lemma F.add_val (a b : ℚ) : F.add (F.val a) (F.val b) = F.val (a + b) := rfl

lemma F.sub_val (a b : ℚ) : F.sub (F.val a) (F.val b) = F.val (a - b) := rfl

lemma F.mul_val (a b : ℚ) : F.mul (F.val a) (F.val b) = F.val (a * b) := rfl

lemma F.neg_val (a : ℚ) : F.neg (F.val a) = F.val (-a) := rfl

lemma F.lt_val (a b : ℚ) : F.lt (F.val a) (F.val b) = decide (a < b) := rfl

lemma F.le_val (a b : ℚ) : F.le (F.val a) (F.val b) = decide (a ≤ b) := rfl

lemma F.div_val (a b : ℚ) :
    F.div (F.val a) (F.val b) = if b = 0 then F.nan else F.val (a / b) := rfl

lemma exists_val_add {x y : F} (hx : ∃ a, x = F.val a) (hy : ∃ b, y = F.val b) :
    ∃ q, F.add x y = F.val q := by
  obtain ⟨a, rfl⟩ := hx; obtain ⟨b, rfl⟩ := hy; exact ⟨a + b, rfl⟩

lemma exists_val_mul {x y : F} (hx : ∃ a, x = F.val a) (hy : ∃ b, y = F.val b) :
    ∃ q, F.mul x y = F.val q := by
  obtain ⟨a, rfl⟩ := hx; obtain ⟨b, rfl⟩ := hy; exact ⟨a * b, rfl⟩

lemma exists_val_sub {x y : F} (hx : ∃ a, x = F.val a) (hy : ∃ b, y = F.val b) :
    ∃ q, F.sub x y = F.val q := by
  obtain ⟨a, rfl⟩ := hx; obtain ⟨b, rfl⟩ := hy; exact ⟨a - b, rfl⟩

lemma exists_val_neg {x : F} (hx : ∃ a, x = F.val a) :
    ∃ q, F.neg x = F.val q := by
  obtain ⟨a, rfl⟩ := hx; exact ⟨-a, rfl⟩

lemma exists_val_div {x y : F} (hx : ∃ a, x = F.val a)
    (hy : ∃ b, y = F.val b ∧ b ≠ 0) : ∃ q, F.div x y = F.val q := by
  obtain ⟨a, rfl⟩ := hx; obtain ⟨b, rfl, hb⟩ := hy
  exact ⟨a / b, by simp [F.div, hb]⟩

lemma exists_val_ite {c : Prop} [Decidable c] {x y : F}
    (hx : ∃ a, x = F.val a) (hy : ∃ b, y = F.val b) :
    ∃ q, (if c then x else y) = F.val q := by
  split
  · exact hx
  · exact hy

/-- The final output clamp of `pid_compute`, applied to any finite value,
produces a value in `[0, 100]`. -/
lemma clampF_spec {x : F} (hx : ∃ y, x = F.val y) :
    ∃ q : ℚ,
      (if F.lt (if F.lt PID_OUTPUT_MAX x then PID_OUTPUT_MAX else x) PID_OUTPUT_MIN
        then PID_OUTPUT_MIN
        else if F.lt PID_OUTPUT_MAX x then PID_OUTPUT_MAX else x) = F.val q ∧
      0 ≤ q ∧ q ≤ 100 := by
  obtain ⟨y, rfl⟩ := hx
  by_cases h1 : (100 : ℚ) < y
  · exact ⟨100, by simp [F.lt, PID_OUTPUT_MAX, PID_OUTPUT_MIN, h1], by norm_num,
      le_refl 100⟩
  · by_cases h2 : y < 0
    · exact ⟨0, by simp [F.lt, PID_OUTPUT_MAX, PID_OUTPUT_MIN, h1, h2],
        le_refl 0, by norm_num⟩
    · exact ⟨y, by simp [F.lt, PID_OUTPUT_MAX, PID_OUTPUT_MIN, h1, h2],
        by linarith, by linarith⟩

/-- The clamp written the way the C code writes it (upper bound first)
equals `clampQ`. -/
lemma code_clamp_eq (x lo hi : ℚ) (h : lo ≤ hi) :
    (if (if hi < x then hi else x) < lo then lo
      else (if hi < x then hi else x)) = clampQ x lo hi := by
  unfold clampQ
  rw [min_def, max_def]
  split_ifs <;> linarith

lemma mul_clampQ (k x lo hi : ℚ) (hk : 0 < k) :
    k * clampQ x lo hi = clampQ (k * x) (k * lo) (k * hi) := by
  unfold clampQ
  rw [mul_max_of_nonneg _ _ (le_of_lt hk), mul_min_of_nonneg _ _ (le_of_lt hk)]

/-! ## PID theorems -/

/-- Claim C2: for every choice of (real-valued) gains `Kp, Ki, Kd`, setpoint
`s`, measurement `m`, timestep `dt > 0` and every PID state with real-valued
numeric fields (which covers every state reachable from `pid_init` through
calls with real-valued inputs), `pid_compute` returns a value in the closed
interval `[0, 100]`. -/
theorem pid_compute_output_in_unit_range
    (qkp qki qkd qs qst qi qle qlm qld qo qrr : ℚ) (sr fr : Bool)
    (qm qdt : ℚ) (hdt : 0 < qdt) :
    ∃ q : ℚ,
      (pid_compute
          (some ⟨F.val qkp, F.val qki, F.val qkd, F.val qs, F.val qst,
            F.val qi, F.val qle, F.val qlm, F.val qld, F.val qo, sr,
            F.val qrr, fr⟩)
          (F.val qm) (F.val qdt)).1 = F.val q ∧ 0 ≤ q ∧ q ≤ 100 := by
  have hguard : F.le (F.val qdt) (F.val 0) = false := by
    simp [F.le]; linarith
  simp only [pid_compute, hguard, Bool.false_eq_true, if_false]
  apply clampF_spec
  apply exists_val_add
  · apply exists_val_add
    · exact ⟨_, rfl⟩
    · by_cases hki : ((1 : ℚ) / 1000) < qki
      · have hki0 : qki ≠ 0 := by intro h; rw [h] at hki; norm_num at hki
        simp only [F.lt, decide_eq_true_eq]
        rw [if_pos hki]
        apply exists_val_mul ⟨_, rfl⟩
        apply exists_val_ite
        · exact exists_val_neg (exists_val_div ⟨_, rfl⟩ ⟨qki, rfl, hki0⟩)
        · apply exists_val_ite
          · exact exists_val_div ⟨_, rfl⟩ ⟨qki, rfl, hki0⟩
          · exact ⟨_, rfl⟩
      · simp only [F.lt, decide_eq_true_eq]
        rw [if_neg hki]
        exact ⟨0, rfl⟩
  · cases fr with
    | true => simp only [if_true]; exact ⟨0, rfl⟩
    | false =>
      simp only [Bool.false_eq_true, if_false]
      apply exists_val_mul (exists_val_neg ⟨_, rfl⟩)
      apply exists_val_add
      · apply exists_val_mul
        · apply exists_val_div ⟨_, rfl⟩
          refine ⟨(1 : ℚ) / 2 + qdt, ?_, by linarith⟩
          simp [F.add, PID_DERIVATIVE_FILTER_TAU]
        · exact exists_val_div ⟨_, rfl⟩ ⟨qdt, rfl, by linarith⟩
      · apply exists_val_mul _ ⟨_, rfl⟩
        apply exists_val_sub ⟨_, rfl⟩
        apply exists_val_div ⟨_, rfl⟩
        exact ⟨(1 : ℚ) / 2 + qdt, by simp [F.add, PID_DERIVATIVE_FILTER_TAU],
          by linarith⟩

/-- Witness for `pid_compute_output_in_unit_range` at the spec's S1 scenario
(`Kp=2, Ki=0.1, Kd=0.5, s=93, m=25, dt=0.1` on the freshly initialised
state). -/
theorem pid_compute_output_in_unit_range_witness :
    (0 : ℚ) < 1 / 10 ∧
    ∃ q : ℚ,
      (pid_compute
          (some ⟨F.val 2, F.val (1 / 10), F.val (1 / 2), F.val 93, F.val 93,
            F.val 0, F.val 0, F.val 0, F.val 0, F.val 0, false, F.val 1,
            true⟩)
          (F.val 25) (F.val (1 / 10))).1 = F.val q ∧ 0 ≤ q ∧ q ≤ 100 :=
  ⟨by norm_num,
    pid_compute_output_in_unit_range 2 (1 / 10) (1 / 2) 93 93 0 0 0 0 0 1
      false true 25 (1 / 10) (by norm_num)⟩

/-- Claim C3, counterexample: a NaN measurement is not guarded by
`pid_compute` (the code only checks `!pid || dt <= 0.0f`), so with
`pid_init(2, 0.1, 0.5, 100)` and `dt = 0.1` a NaN measurement neither
returns 0 nor leaves the state unchanged: the output is NaN and the NaN
poisons `integral`, `last_error` and `last_measurement`. -/
theorem pid_compute_nan_measurement_cex :
    ((pid_compute
        (some (pid_init (F.val 2) (F.val (1 / 10)) (F.val (1 / 2)) (F.val 100)))
        F.nan (F.val (1 / 10))).1 ≠ F.val 0) ∧
    ((pid_compute
        (some (pid_init (F.val 2) (F.val (1 / 10)) (F.val (1 / 2)) (F.val 100)))
        F.nan (F.val (1 / 10))).2 ≠
      some (pid_init (F.val 2) (F.val (1 / 10)) (F.val (1 / 2)) (F.val 100))) := by
  decide

/-- Claim C3 (amended): for `dt ≤ 0` (as evaluated by the C float
comparison) the call returns 0 and leaves every field of the PID state
unchanged, and a null handle returns 0; the claimed NaN-measurement guard
does not exist in the code. -/
theorem pid_compute_degenerate_guarded (p : pid_state_t) (m dt : F)
    (hdt : F.le dt (F.val 0) = true) :
    pid_compute (some p) m dt = (F.val 0, some p) ∧
    pid_compute none m dt = (F.val 0, none) :=
  ⟨by simp [pid_compute, hdt], rfl⟩

/-- Witness for `pid_compute_degenerate_guarded` at `dt = 0` on the
freshly initialised state. -/
theorem pid_compute_degenerate_guarded_witness :
    F.le (F.val 0) (F.val 0) = true ∧
    (pid_compute
        (some (pid_init (F.val 2) (F.val (1 / 10)) (F.val (1 / 2)) (F.val 100)))
        (F.val 50) (F.val 0) =
      (F.val 0,
        some (pid_init (F.val 2) (F.val (1 / 10)) (F.val (1 / 2)) (F.val 100)))) :=
  ⟨by decide, (pid_compute_degenerate_guarded _ _ _ (by decide)).1⟩

/-- Claim C4, counterexample: with `Kp = 0, Ki = 0.0005, Kd = 0, s = 100,
m₀ = 0, dt = 0.1`, the first call after `pid_init` returns 0 (the integral
term is skipped because `Ki ≤ 0.001`), while the spec's formula
`clamp(Kp·(s − m₀) + Ki·(s − m₀)·dt, 0, 100)` gives `0.005`. -/
theorem pid_first_call_spec_formula_cex :
    (pid_compute
        (some (pid_init (F.val 0) (F.val (1 / 2000)) (F.val 0) (F.val 100)))
        (F.val 0) (F.val (1 / 10))).1 ≠
      F.val (spec_first_call_formula 0 (1 / 2000) 100 0 (1 / 10)) := by
  decide

/-- Claim C4 (amended): for every gains/setpoint configuration and every
first measurement `m₀` and `dt > 0`, the first call to `pid_compute` after
`pid_init` returns exactly `clamp(Kp·e + I₁, 0, 100)` where `e = s − m₀`
and `I₁ = clamp(Ki·e·dt, −100, 100)` if `Ki > 0.001` and `I₁ = 0`
otherwise, with zero derivative contribution. -/
theorem pid_first_call_exact (qkp qki qkd qs qm qdt : ℚ) (hdt : 0 < qdt) :
    (pid_compute (some (pid_init (F.val qkp) (F.val qki) (F.val qkd) (F.val qs)))
        (F.val qm) (F.val qdt)).1 =
      F.val (pid_first_call_formula qkp qki qs qm qdt) := by
  have hguard : F.le (F.val qdt) (F.val 0) = false := by
    simp [F.le]; linarith
  simp only [pid_compute, pid_init, hguard, Bool.false_eq_true, if_false, if_true]
  by_cases hki : (1 / 1000 : ℚ) < qki
  · have hkipos : 0 < qki := by linarith
    have hki0 : qki ≠ 0 := ne_of_gt hkipos
    simp only [F.add_val, F.sub_val, F.mul_val, F.neg_val, F.lt_val, F.div_val,
      if_neg hki0, PID_OUTPUT_MAX, PID_OUTPUT_MIN, PID_DERIVATIVE_FILTER_TAU,
      decide_eq_true_eq, if_pos hki]
    simp only [F.add_val, F.mul_val, F.neg_val, F.lt_val, decide_eq_true_eq,
      ← apply_ite F.val, F.val.injEq]
    rw [code_clamp_eq _ (-(100 / qki)) (100 / qki)
      (by have h : (0 : ℚ) < 100 / qki := by positivity
          linarith)]
    rw [code_clamp_eq _ 0 100 (by norm_num)]
    rw [mul_clampQ _ _ _ _ hkipos]
    unfold pid_first_call_formula
    simp only [hki, if_true]
    rw [mul_neg, mul_comm qki (100 / qki), div_mul_cancel₀ _ hki0]
    ring_nf
  · simp only [F.add_val, F.sub_val, F.mul_val, F.neg_val, F.lt_val, F.div_val,
      PID_OUTPUT_MAX, PID_OUTPUT_MIN, decide_eq_true_eq, if_neg hki]
    simp only [F.add_val, F.mul_val, F.lt_val, decide_eq_true_eq,
      ← apply_ite F.val, F.val.injEq]
    rw [code_clamp_eq _ 0 100 (by norm_num)]
    unfold pid_first_call_formula
    simp only [if_neg hki]
    ring_nf

/-- Witness for `pid_first_call_exact` at the spec's S1 scenario, where the
formula gives exactly 100. -/
theorem pid_first_call_exact_witness :
    (0 : ℚ) < 1 / 10 ∧
    (pid_compute (some (pid_init (F.val 2) (F.val (1 / 10)) (F.val (1 / 2))
        (F.val 93))) (F.val 25) (F.val (1 / 10))).1 =
      F.val (pid_first_call_formula 2 (1 / 10) 93 25 (1 / 10)) :=
  ⟨by norm_num, pid_first_call_exact 2 (1 / 10) (1 / 2) 93 25 (1 / 10) (by norm_num)⟩

/-! ## Status change detector theorems -/

/-- Claim C6: for every snapshot `x`, `hasChanged x` on a freshly
constructed (or reset) change detector returns true, and immediately
calling `hasChanged x` again with the identical snapshot returns false. -/
theorem hasChanged_true_then_false (x : ui_state_t) :
    (hasChanged detector_init x).1 = true ∧
    (hasChanged (hasChanged detector_init x).2 x).1 = false := by
  refine ⟨rfl, ?_⟩
  show (hasChanged { previous := x, initialized := true } x).1 = false
  norm_num [hasChanged, floatChanged, STATUS_TEMP_THRESHOLD,
    STATUS_PRESSURE_THRESHOLD, STATUS_WEIGHT_THRESHOLD,
    STATUS_FLOW_RATE_THRESHOLD]

/-- Claim C9: after initialization, every `hasChanged` call either copies
the entire current snapshot into the stored previous snapshot (when it
returns true) or leaves the detector state completely unchanged (when it
returns false); there is no partial per-field update. -/
theorem hasChanged_copies_whole_snapshot (d : StatusChangeDetector)
    (x : ui_state_t) (hinit : d.initialized = true) :
    ((hasChanged d x).1 = true → (hasChanged d x).2 = { d with previous := x }) ∧
    ((hasChanged d x).1 = false → (hasChanged d x).2 = d) := by
  unfold hasChanged
  rw [hinit]
  simp only [Bool.not_true, Bool.false_eq_true, if_false]
  split
  · exact ⟨fun _ => rfl, fun h => by simp at h⟩
  · exact ⟨fun h => by simp at h, fun _ => rfl⟩

/-- Witness for `hasChanged_copies_whole_snapshot`: an initialized detector
holding the zero snapshot, fed a snapshot whose brew temperature moved by
a full degree (so it reports a change and commits the whole snapshot). -/
theorem hasChanged_copies_whole_snapshot_witness :
    (({ previous := ui_state_zero, initialized := true } :
        StatusChangeDetector).initialized = true) ∧
    ((hasChanged { previous := ui_state_zero, initialized := true }
        { ui_state_zero with brew_temp := 1 }).1 = true →
      (hasChanged { previous := ui_state_zero, initialized := true }
          { ui_state_zero with brew_temp := 1 }).2 =
        { previous := { ui_state_zero with brew_temp := 1 },
          initialized := true }) :=
  ⟨rfl,
    (hasChanged_copies_whole_snapshot
      { previous := ui_state_zero, initialized := true }
      { ui_state_zero with brew_temp := 1 } rfl).1⟩

/-! ## MQTT power meter theorems -/

lemma parseShelly_fail {m : MQTTPowerMeter} {doc : Json}
    (h : (parseShelly m doc).1 = false) : (parseShelly m doc).2 = m := by
  unfold parseShelly at *
  split at h
  · split at h
    · rfl
    · simp at h
  · rfl

lemma parseTasmota_fail {m : MQTTPowerMeter} {doc : Json}
    (h : (parseTasmota m doc).1 = false) : (parseTasmota m doc).2 = m := by
  unfold parseTasmota at *
  split at h
  · simp at h
  · rfl

lemma parseGeneric_fail {m : MQTTPowerMeter} {doc : Json}
    (h : (parseGeneric m doc).1 = false) : (parseGeneric m doc).2 = m := by
  unfold parseGeneric at *
  generalize hp : (if m.jsonPathPower.length ≠ 0 then extractJsonValue doc m.jsonPathPower else none) = p at *
  generalize hv : (if m.jsonPathVoltage.length ≠ 0 then extractJsonValue doc m.jsonPathVoltage else none) = v at *
  generalize hc : (if m.jsonPathCurrent.length ≠ 0 then extractJsonValue doc m.jsonPathCurrent else none) = c at *
  generalize he : (if m.jsonPathEnergy.length ≠ 0 then extractJsonValue doc m.jsonPathEnergy else none) = e at *
  simp only [Bool.or_eq_false_iff] at h
  obtain ⟨⟨⟨hp1, hv1⟩, hc1⟩, he1⟩ := h
  rw [show p = none by simpa using hp1, show v = none by simpa using hv1,
    show c = none by simpa using hc1, show e = none by simpa using he1]

lemma tryAutoParse_fail {m : MQTTPowerMeter} {doc : Json}
    (h : (tryAutoParse m doc).1 = false) : (tryAutoParse m doc).2 = m := by
  unfold tryAutoParse at *
  by_cases hsh : (parseShelly m doc).1 = true
  · simp [hsh] at h
  · rw [Bool.not_eq_true] at hsh
    have hsh2 := parseShelly_fail hsh
    simp only [hsh, Bool.false_eq_true, if_false, hsh2] at h ⊢
    by_cases hta : (parseTasmota m doc).1 = true
    · simp [hta] at h
    · rw [Bool.not_eq_true] at hta
      have hta2 := parseTasmota_fail hta
      simp only [hta, Bool.false_eq_true, if_false, hta2] at h ⊢
      generalize hp : Json.asNum (doc.get "power") = p at *
      generalize hv : Json.asNum (doc.get "voltage") = v at *
      generalize hc : Json.asNum (doc.get "current") = c at *
      generalize he : Json.asNum (doc.get "energy") = e at *
      simp only [Bool.or_eq_false_iff] at h
      obtain ⟨⟨⟨hp1, hv1⟩, hc1⟩, he1⟩ := h
      rw [show p = none by simpa using hp1, show v = none by simpa using hv1,
        show c = none by simpa using hc1, show e = none by simpa using he1]

/-- A failed parse leaves the meter state untouched, whichever dialect the
dispatch selected. -/
lemma parseDispatch_fail {m : MQTTPowerMeter} {doc : Json}
    (h : (parseDispatch m doc).1 = false) : (parseDispatch m doc).2 = m := by
  unfold parseDispatch at *
  cases hf : m.format <;> rw [hf] at h <;> simp only
  · exact parseShelly_fail h
  · exact parseTasmota_fail h
  · exact parseGeneric_fail h
  · exact tryAutoParse_fail h

/-- Claim C10: for every MQTT payload that fails to parse (malformed JSON,
modelled as `none`, or a shape recognized by no dialect), `onMqttData`
leaves everything but the last-error string unchanged — in particular the
stored last reading, the has-data flag and the last-update timestamp —
and consequently the results of `isConnected` and `read` are unchanged at
every time instant. -/
theorem mqtt_failed_parse_preserves_state (m : MQTTPowerMeter)
    (payload : Option Json) (now : Nat)
    (hfail : match payload with
      | none => True
      | some doc => (parseDispatch m doc).1 = false) :
    (onMqttData m payload now =
      { m with lastError := (onMqttData m payload now).lastError }) ∧
    (∀ t, (onMqttData m payload now).isConnected t = m.isConnected t) ∧
    (∀ t, (onMqttData m payload now).read t = m.read t) := by
  have hst : onMqttData m payload now =
      { m with lastError := (onMqttData m payload now).lastError } := by
    cases payload with
    | none => rfl
    | some doc =>
      simp only at hfail
      unfold onMqttData
      simp only [hfail, Bool.false_eq_true, if_false, parseDispatch_fail hfail]
  refine ⟨hst, fun t => ?_, fun t => ?_⟩
  · rw [hst]; rfl
  · rw [hst]
    unfold MQTTPowerMeter.read
    rfl

/-- Witness for `mqtt_failed_parse_preserves_state`: the empty JSON object
(no dialect recognises it) fed to a fresh auto-detect meter. -/
theorem mqtt_failed_parse_preserves_state_witness :
    (match (some (Json.obj []) : Option Json) with
      | none => True
      | some doc => (parseDispatch meter_auto_empty doc).1 = false) ∧
    (onMqttData meter_auto_empty (some (Json.obj [])) 5 =
      { meter_auto_empty with
        lastError := (onMqttData meter_auto_empty (some (Json.obj [])) 5).lastError }) :=
  ⟨by decide,
    (mqtt_failed_parse_preserves_state meter_auto_empty (some (Json.obj [])) 5
      (by decide)).1⟩

/-- Claim C8: an MQTT power meter in auto-detect mode receiving the S5
payload `{"ENERGY":{"Power":1234,"Voltage":231,"Current":5.36,
"Total":12.345,"Factor":0.98}}` produces the reading `power=1234,
voltage=231, current=5.36, energy_import=12.345 kWh, power_factor=0.98,
frequency=50`, latches the detected dialect to Tasmota, and from then on
the dispatch runs the Tasmota parser directly (no re-detection). -/
theorem mqtt_autodetect_s5 (m : MQTTPowerMeter) (now : Nat)
    (hfmt : m.format = .auto) :
    ((onMqttData m (some tasmotaS5payload) now).lastReading.power = 1234) ∧
    ((onMqttData m (some tasmotaS5payload) now).lastReading.voltage = 231) ∧
    ((onMqttData m (some tasmotaS5payload) now).lastReading.current = 536 / 100) ∧
    ((onMqttData m (some tasmotaS5payload) now).lastReading.energy_import = 12345 / 1000) ∧
    ((onMqttData m (some tasmotaS5payload) now).lastReading.power_factor = 98 / 100) ∧
    ((onMqttData m (some tasmotaS5payload) now).lastReading.frequency = 50) ∧
    ((onMqttData m (some tasmotaS5payload) now).format = MqttFormat.tasmota) ∧
    (∀ (m2 : MQTTPowerMeter) (doc : Json), m2.format = MqttFormat.tasmota →
      parseDispatch m2 doc = parseTasmota m2 doc) := by
  refine ⟨?_, ?_, ?_, ?_, ?_, ?_, ?_, ?_⟩ <;>
    first
      | (intro m2 doc h2; simp [parseDispatch, h2])
      | simp [onMqttData, parseDispatch, hfmt, tryAutoParse, parseShelly,
          parseTasmota, tasmotaS5payload, Json.get, Json.asNum, List.lookup]

/-- Witness for `mqtt_autodetect_s5` on a fresh auto-detect meter. -/
theorem mqtt_autodetect_s5_witness :
    (meter_auto_empty.format = MqttFormat.auto) ∧
    ((onMqttData meter_auto_empty (some tasmotaS5payload) 5).format =
      MqttFormat.tasmota) :=
  ⟨rfl, (mqtt_autodetect_s5 meter_auto_empty 5 rfl).2.2.2.2.2.2.1⟩

/-! ## Sensor fault-tracking theorems -/

/-- Claim C7, counterexample: one single out-of-range brew-NTC sample
(500 °C) arriving right after a valid sample (fault flag clear, counter 0)
already sets the channel's fault flag — the flag is not gated by the
consecutive-failure threshold; only the ERROR report is. -/
theorem sensor_single_invalid_sets_fault_cex :
    (ntc_validate_step { fault := false, error_count := 0 }
      (F.val 500)).state.fault = true := by
  decide

/-- Claim C7 (amended): a single invalid sample immediately sets the
channel's internal fault flag and bumps the consecutive-failure counter to
1, but never emits the fault report; for every channel — brew/steam NTC
and pressure, the latter on either of its two range checks — the report is
emitted exactly when the incremented consecutive-failure counter reaches
the threshold 10, and a valid sample never reports. -/
theorem sensor_single_invalid_no_report
    (t : F) (hbad : sensor_validate_temp t (-10) 200 = false)
    (v : ℚ) (v5 : Option ℚ) (hbadv : v < 1 / 5 ∨ v > 3) :
    ((ntc_validate_step { fault := false, error_count := 0 } t).state.fault = true ∧
     (ntc_validate_step { fault := false, error_count := 0 } t).state.error_count = 1 ∧
     (ntc_validate_step { fault := false, error_count := 0 } t).reported = false) ∧
    ((read_pressure_step { fault := false, error_count := 0 } v v5).state.fault = true ∧
     (read_pressure_step { fault := false, error_count := 0 } v v5).state.error_count = 1 ∧
     (read_pressure_step { fault := false, error_count := 0 } v v5).reported = false) ∧
    (∀ st : sensor_channel_state,
      (ntc_validate_step st t).reported = true ↔
        (st.error_count + 1) % 2 ^ 16 = SENSOR_ERROR_THRESHOLD) ∧
    (∀ (st : sensor_channel_state) (w : ℚ) (w5 : Option ℚ),
      ((read_pressure_step st w w5).state.fault = true →
        (read_pressure_step st w w5).state.error_count =
          (st.error_count + 1) % 2 ^ 16 ∧
        ((read_pressure_step st w w5).reported = true ↔
          (st.error_count + 1) % 2 ^ 16 = SENSOR_ERROR_THRESHOLD)) ∧
      ((read_pressure_step st w w5).state.fault = false →
        (read_pressure_step st w w5).reported = false)) := by
  refine ⟨?_, ?_, ?_, ?_⟩
  · simp [ntc_validate_step, hbad, SENSOR_ERROR_THRESHOLD]
  · unfold read_pressure_step
    rw [if_pos hbadv]
    exact ⟨rfl, by decide, by decide⟩
  · intro st
    simp [ntc_validate_step, hbad, SENSOR_ERROR_THRESHOLD]
    omega
  · intro st w w5
    unfold read_pressure_step
    dsimp only
    split
    · -- ADC-voltage range check fails
      constructor
      · intro _
        refine ⟨rfl, ?_⟩
        simp only [SENSOR_ERROR_THRESHOLD, decide_eq_true_eq]
        omega
      · intro h
        simp at h
    · split
      · -- transducer-voltage range check fails
        constructor
        · intro _
          refine ⟨rfl, ?_⟩
          simp only [SENSOR_ERROR_THRESHOLD, decide_eq_true_eq]
          omega
        · intro h
          simp at h
      · -- valid sample: flag cleared, nothing reported
        constructor
        · intro h
          simp at h
        · intro _
          rfl

/-- Witness for `sensor_single_invalid_no_report` at the out-of-range
sample 500 °C and an out-of-range pressure sample of 0 V with no 5V
monitor. -/
theorem sensor_single_invalid_no_report_witness :
    sensor_validate_temp (F.val 500) (-10) 200 = false ∧
    ((0 : ℚ) < 1 / 5 ∨ (0 : ℚ) > 3) ∧
    (ntc_validate_step { fault := false, error_count := 0 }
      (F.val 500)).reported = false ∧
    (read_pressure_step { fault := false, error_count := 0 }
      0 none).reported = false :=
  ⟨by decide, Or.inl (by decide),
    (sensor_single_invalid_no_report (F.val 500) (by decide) 0 none
      (Or.inl (by decide))).1.2.2,
    (sensor_single_invalid_no_report (F.val 500) (by decide) 0 none
      (Or.inl (by decide))).2.1.2.2⟩

/-! ## Bootloader staging proofs (C1, C5) -/

lemma flush_page_ghost (st : RecvState) :
    (flush_page st).chunk_count = st.chunk_count ∧
    (flush_page st).received_size = st.received_size ∧
    (flush_page st).running_crc = st.running_crc ∧
    (flush_page st).uart = st.uart ∧
    (flush_page st).data = st.data ∧
    (flush_page st).accepted_seqs = st.accepted_seqs := by
  unfold flush_page flash_bootloader_erase flash_bootloader_program
  dsimp only
  split <;> simp

lemma fill_pages_ghost (bs : List Nat) (st : RecvState) :
    (fill_pages bs st).chunk_count = st.chunk_count ∧
    (fill_pages bs st).received_size = st.received_size ∧
    (fill_pages bs st).running_crc = st.running_crc ∧
    (fill_pages bs st).uart = st.uart ∧
    (fill_pages bs st).data = st.data ∧
    (fill_pages bs st).accepted_seqs = st.accepted_seqs := by
  induction bs generalizing st with
  | nil => simp [fill_pages]
  | cons b rest ih =>
    simp only [fill_pages]
    split
    · exact (ih _).imp (fun h => h.trans (flush_page_ghost _).1) (fun h => h.imp
        (fun h => h.trans (flush_page_ghost _).2.1) (fun h => h.imp
        (fun h => h.trans (flush_page_ghost _).2.2.1) (fun h => h.imp
        (fun h => h.trans (flush_page_ghost _).2.2.2.1) (fun h => h.imp
        (fun h => h.trans (flush_page_ghost _).2.2.2.2.1)
        (fun h => h.trans (flush_page_ghost _).2.2.2.2.2)))))
    · exact ih _

lemma getD_drop (l : List Nat) (n j : Nat) : (l.drop n).getD j 0 = l.getD (n + j) 0 := by
  simp [List.getD_eq_getElem?_getD, List.getElem?_drop]

set_option maxRecDepth 4096 in
lemma flush_page_inv (st : RecvState) (D : List Nat)
    (hlen : st.page_buffer.length = FLASH_PAGE_SIZE)
    (le_len : st.page_buffer.length ≤ D.length)
    (hbuf : st.page_buffer = D.drop (D.length - st.page_buffer.length))
    (hpos : st.current_page_start =
      FLASH_TARGET_OFFSET + (D.length - st.page_buffer.length))
    (hflashed : ∀ i < D.length - st.page_buffer.length,
      st.flash (FLASH_TARGET_OFFSET + i) = D.getD i 0)
    (haligned : FLASH_PAGE_SIZE ∣ D.length - st.page_buffer.length)
    (hfresh : st.sector_erased = false → D.length = st.page_buffer.length)
    (hseeded : st.sector_erased = true →
      st.current_sector = (st.current_page_start - FLASH_PAGE_SIZE) -
        (st.current_page_start - FLASH_PAGE_SIZE) % FLASH_SECTOR_SIZE ∧
      FLASH_PAGE_SIZE ≤ D.length - st.page_buffer.length) :
    StagInv (flush_page st) D := by
  have hT : FLASH_TARGET_OFFSET = 1572864 := rfl
  have hP : FLASH_PAGE_SIZE = 256 := rfl
  have hS : FLASH_SECTOR_SIZE = 4096 := rfl
  simp only [hT, hP, hS] at hlen hpos hflashed haligned hseeded
  set fl := D.length - 256 with hfl
  have hDlen : 256 ≤ D.length := by omega
  have hflval : D.length - st.page_buffer.length = fl := by omega
  rw [hflval] at hbuf hpos hflashed haligned hseeded
  have h256pos : 256 ∣ st.current_page_start := by
    rcases haligned with ⟨k, hk⟩
    exact ⟨6144 + k, by omega⟩
  unfold flush_page
  dsimp only
  simp only [hT, hP, hS]
  split
  case isTrue hcond =>
    -- erase branch: either the very first page, or an aligned page start
    have herase_safe : fl = 0 ∨ st.current_page_start % 4096 = 0 := by
      rcases hse : st.sector_erased
      · left
        have := hfresh hse
        omega
      · right
        rw [hse] at hcond
        simp only [Bool.not_true, Bool.false_or, decide_eq_true_eq, hP, hS]
          at hcond
        obtain ⟨hcur, hge⟩ := hseeded hse
        rw [hcur] at hcond
        omega
    refine ⟨?_, ?_, ?_, ?_, ?_, ?_, ?_, ?_⟩
    · dsimp only [flash_bootloader_program, flash_bootloader_erase]
      simp
    · dsimp only [flash_bootloader_program, flash_bootloader_erase]
      rw [List.length_nil, Nat.sub_zero, List.drop_length]
    · dsimp only [flash_bootloader_program, flash_bootloader_erase]
      simp only [hP, List.length_nil]
      omega
    · dsimp only [flash_bootloader_program, flash_bootloader_erase]
      simp only [hT, hP, List.length_nil]
      omega
    · -- flashed
      intro i hi
      dsimp only [flash_bootloader_program, flash_bootloader_erase] at hi
      simp only [List.length_nil, Nat.sub_zero] at hi
      dsimp only [flash_bootloader_program, flash_bootloader_erase,
        flashWriteBytes]
      simp only [hT, hP, hS]
      by_cases hge : fl ≤ i
      · rw [if_pos (by constructor <;> omega)]
        have heq : st.page_buffer.getD (1572864 + i - st.current_page_start) 0 =
            D.getD i 0 := by
          rw [hbuf, getD_drop]
          congr 1
          omega
        simpa using heq
      · rw [if_neg (by omega)]
        rw [if_neg ?hno]
        case hno =>
          rintro ⟨h1, h2⟩
          simp only [List.length_replicate] at h2
          omega
        exact hflashed i (by omega)
    · -- aligned
      dsimp only [flash_bootloader_program, flash_bootloader_erase]
      simp only [hP, List.length_nil, Nat.sub_zero]
      rcases haligned with ⟨k, hk⟩
      exact ⟨k + 1, by omega⟩
    · -- fresh: sector_erased is true after the flush
      intro h
      revert h
      dsimp only [flash_bootloader_program, flash_bootloader_erase]
      simp
    · -- seeded
      intro _
      dsimp only [flash_bootloader_program, flash_bootloader_erase]
      simp only [hT, hP, hS, List.length_nil, Nat.sub_zero]
      refine ⟨by omega, by omega⟩
  case isFalse hcond =>
    have hse : st.sector_erased = true := by
      rcases h : st.sector_erased
      · rw [h] at hcond; simp at hcond
      · rfl
    rw [hse] at hcond
    simp only [Bool.not_true, Bool.false_or, decide_eq_true_eq,
      Decidable.not_not, hP, hS] at hcond
    obtain ⟨hcur, _⟩ := hseeded hse
    refine ⟨?_, ?_, ?_, ?_, ?_, ?_, ?_, ?_⟩
    · dsimp only [flash_bootloader_program, flash_bootloader_erase]
      simp
    · dsimp only [flash_bootloader_program, flash_bootloader_erase]
      rw [List.length_nil, Nat.sub_zero, List.drop_length]
    · dsimp only [flash_bootloader_program, flash_bootloader_erase]
      simp only [hP, List.length_nil]
      omega
    · dsimp only [flash_bootloader_program, flash_bootloader_erase]
      simp only [hT, hP, List.length_nil]
      omega
    · intro i hi
      simp only [List.length_nil, Nat.sub_zero] at hi
      dsimp only [flash_bootloader_program, flashWriteBytes]
      simp only [hT, hP, hS]
      by_cases hge : fl ≤ i
      · rw [if_pos (by constructor <;> omega)]
        have heq : st.page_buffer.getD (1572864 + i - st.current_page_start) 0 =
            D.getD i 0 := by
          rw [hbuf, getD_drop]
          congr 1
          omega
        simpa using heq
      · rw [if_neg (by omega)]
        exact hflashed i (by omega)
    · dsimp only [flash_bootloader_program]
      simp only [hP, List.length_nil, Nat.sub_zero]
      rcases haligned with ⟨k, hk⟩
      exact ⟨k + 1, by omega⟩
    · intro h
      simp only [flash_bootloader_program, hse] at h
      exact Bool.noConfusion h
    · intro _
      simp only [flash_bootloader_program, List.length_nil, Nat.sub_zero, hT, hP, hS]
      exact ⟨by omega, by omega⟩

lemma fill_step_inv (b : Nat) (st : RecvState) (D : List Nat)
    (h : StagInv st D) (hu : active_region_untouched st) :
    StagInv
      (if FLASH_PAGE_SIZE ≤ (st.page_buffer ++ [b]).length then
        flush_page { st with page_buffer := st.page_buffer ++ [b] }
      else { st with page_buffer := st.page_buffer ++ [b] })
      (D ++ [b]) ∧
    active_region_untouched
      (if FLASH_PAGE_SIZE ≤ (st.page_buffer ++ [b]).length then
        flush_page { st with page_buffer := st.page_buffer ++ [b] }
      else { st with page_buffer := st.page_buffer ++ [b] }) := by
  obtain ⟨le_len, hbuf, hlt, hpos, hflashed, haligned, hfresh, hseeded⟩ := h
  have hT : FLASH_TARGET_OFFSET = 1572864 := rfl
  have hP : FLASH_PAGE_SIZE = 256 := rfl
  have hS : FLASH_SECTOR_SIZE = 4096 := rfl
  have hlb : (st.page_buffer ++ [b]).length = st.page_buffer.length + 1 := by
    simp
  have hfl : D.length + 1 - (st.page_buffer.length + 1) =
      D.length - st.page_buffer.length := by omega
  have hbuf2 : st.page_buffer ++ [b] =
      (D ++ [b]).drop (D.length + 1 - (st.page_buffer.length + 1)) := by
    rw [hfl, List.drop_append_of_le_length (by omega), ← hbuf]
  rw [hfl] at hbuf2
  have hflashed2 : ∀ i < D.length - st.page_buffer.length,
      st.flash (FLASH_TARGET_OFFSET + i) = (D ++ [b]).getD i 0 := by
    intro i hi
    rw [List.getD_append _ _ _ _ (by omega)]
    exact hflashed i hi
  rcases eq_or_lt_of_le (by omega : st.page_buffer.length + 1 ≤ FLASH_PAGE_SIZE)
    with hfull | hpart
  · -- the appended byte fills the page: flush
    rw [if_pos (by rw [hlb]; omega)]
    constructor
    · refine flush_page_inv _ (D ++ [b]) ?_ ?_ ?_ ?_ ?_ ?_ ?_ ?_ <;>
        simp only [hlb, List.length_append, List.length_singleton]
      · exact hfull
      · omega
      · rw [hfl]; exact hbuf2
      · rw [hfl]; exact hpos
      · rw [hfl]; exact hflashed2
      · rw [hfl]; exact haligned
      · intro hse; have := hfresh hse; omega
      · intro hse; obtain ⟨h1, h2⟩ := hseeded hse
        exact ⟨h1, by omega⟩
    · -- the flush's erase and program stay at or above the staging base
      have hge : FLASH_TARGET_OFFSET ≤ st.current_page_start := by
        rw [hpos]; omega
      intro w hw
      unfold flush_page at hw
      dsimp only at hw
      split at hw
      · simp only [flash_bootloader_program, flash_bootloader_erase,
          List.mem_append, List.mem_singleton] at hw
        rcases hw with (hw | hw) | hw
        · exact hu w hw
        · rw [hw]; dsimp only; rw [hT] at hge ⊢; rw [hS]; omega
        · rw [hw]; dsimp only; exact hge
      · simp only [flash_bootloader_program, List.mem_append,
          List.mem_singleton] at hw
        rcases hw with hw | hw
        · exact hu w hw
        · rw [hw]; dsimp only; exact hge
  · -- partial page: only the buffer grows
    rw [if_neg (by rw [hlb]; omega)]
    refine ⟨⟨?_, ?_, ?_, ?_, ?_, ?_, ?_, ?_⟩, ?_⟩
    · simp only [hlb, List.length_append, List.length_singleton]; omega
    · simp only [hlb, List.length_append, List.length_singleton]
      rw [hfl]; exact hbuf2
    · simp only [hlb]; omega
    · simp only [hlb, List.length_append, List.length_singleton]
      rw [hfl]; exact hpos
    · simp only [hlb, List.length_append, List.length_singleton]
      rw [hfl]; exact hflashed2
    · simp only [hlb, List.length_append, List.length_singleton]
      rw [hfl]; exact haligned
    · intro hse
      simp only [hlb, List.length_append, List.length_singleton]
      have := hfresh hse; omega
    · intro hse
      simp only [hlb, List.length_append, List.length_singleton]
      obtain ⟨h1, h2⟩ := hseeded hse
      exact ⟨h1, by omega⟩
    · exact hu

lemma fill_pages_inv (bytes : List Nat) : ∀ (st : RecvState) (D : List Nat),
    StagInv st D → active_region_untouched st →
    StagInv (fill_pages bytes st) (D ++ bytes) ∧
    active_region_untouched (fill_pages bytes st) := by
  induction bytes with
  | nil => intro st D h hu; simpa [fill_pages] using ⟨h, hu⟩
  | cons b rest ih =>
    intro st D h hu
    rw [fill_pages]
    have hstep := fill_step_inv b st D h hu
    have hres := ih _ _ hstep.1 hstep.2
    simpa using hres

lemma foldl_range_getD (l : List Nat) : ∀ (f : Nat → Nat → Nat) (a : Nat),
    (List.range l.length).foldl (fun c i => f c (l.getD i 0)) a = l.foldl f a := by
  induction l with
  | nil => intro f a; rfl
  | cons x xs ih =>
    intro f a
    rw [List.length_cons, List.range_succ_eq_map, List.foldl_cons,
      List.foldl_map]
    simp only [List.getD_cons_succ, List.getD_cons_zero]
    exact ih f (f a x)

lemma accept_chunk_loopinv (st : RecvState) (c : BootChunk)
    (h : LoopInv st) (hseq : c.seq = st.chunk_count) :
    LoopInv (accept_chunk st c) := by
  obtain ⟨hstag, hu, hsz, hcrc, hseqs⟩ := h
  have hstag1 : StagInv { st with
      running_crc := c.payload.foldl crc32_byte st.running_crc } st.data := by
    obtain ⟨a1, a2, a3, a4, a5, a6, a7, a8⟩ := hstag
    exact ⟨a1, a2, a3, a4, a5, a6, a7, a8⟩
  have hu1 : active_region_untouched { st with
      running_crc := c.payload.foldl crc32_byte st.running_crc } := hu
  have hfill := fill_pages_inv c.payload _ _ hstag1 hu1
  have hg := fill_pages_ghost c.payload { st with
      running_crc := c.payload.foldl crc32_byte st.running_crc }
  dsimp only at hg
  unfold accept_chunk
  dsimp only
  refine ⟨?_, ?_, ?_, ?_, ?_⟩
  · show StagInv _ (_ ++ c.payload)
    rw [show (fill_pages c.payload { st with
        running_crc := c.payload.foldl crc32_byte st.running_crc }).data
        = st.data from hg.2.2.2.2.1]
    obtain ⟨a1, a2, a3, a4, a5, a6, a7, a8⟩ := hfill.1
    exact ⟨a1, a2, a3, a4, a5, a6, a7, a8⟩
  · exact hfill.2
  · show _ + c.payload.length = (_ ++ c.payload).length
    rw [hg.2.1, hg.2.2.2.2.1, List.length_append]
    omega
  · show _ = List.foldl crc32_byte 0xFFFFFFFF (_ ++ c.payload)
    rw [hg.2.2.1, hg.2.2.2.2.1, List.foldl_append, ← hcrc]
  · show _ ++ [c.seq] = List.range (_ + 1)
    rw [hg.2.2.2.2.2, hg.1, List.range_succ, hseqs, hseq]

lemma boot_init_loopinv (inp : BootInput) : LoopInv (boot_init_state inp) := by
  refine ⟨⟨?_, ?_, ?_, ?_, ?_, ?_, ?_, ?_⟩, ?_, rfl, rfl, rfl⟩ <;>
    dsimp only [boot_init_state]
  · exact Nat.le_refl _
  · rfl
  · decide
  · rfl
  · intro i hi; omega
  · exact ⟨0, by decide⟩
  · intro _; rfl
  · intro h; exact Bool.noConfusion h
  · intro w hw; exact absurd hw (List.not_mem_nil w)

lemma abort_loopinv (st : RecvState) (e : Nat) (h : LoopInv st) :
    LoopInv { st with uart := st.uart ++ [0xFF, e] } := by
  obtain ⟨⟨a1, a2, a3, a4, a5, a6, a7, a8⟩, hu, hsz, hcrc, hseqs⟩ := h
  exact ⟨⟨a1, a2, a3, a4, a5, a6, a7, a8⟩, hu, hsz, hcrc, hseqs⟩

lemma process_frames_loopinv (frames : List BootChunk) : ∀ st : RecvState,
    LoopInv st → LoopInv (loop_state (process_frames frames st)) := by
  induction frames with
  | nil => intro st h; exact abort_loopinv st _ h
  | cons c rest ih =>
    intro st h
    rw [process_frames]
    split
    · exact h
    · split
      · exact abort_loopinv st _ h
      · split
        · exact abort_loopinv st _ h
        · rename_i hend hsz hcs
          push_neg at hsz
          exact ih _ (accept_chunk_loopinv st c h hsz.2.2)

lemma reception_state_eq (inp : BootInput) :
    reception_state inp = loop_state (process_frames inp.frames (boot_init_state inp)) := by
  unfold reception_state
  cases process_frames inp.frames (boot_init_state inp) <;> rfl

lemma reception_loopinv (inp : BootInput) : LoopInv (reception_state inp) := by
  rw [reception_state_eq]
  exact process_frames_loopinv _ _ (boot_init_loopinv inp)

lemma final_page_flush_inv (st : RecvState) (D : List Nat)
    (h : StagInv st D) (hu : active_region_untouched st) :
    (∀ i < D.length,
      (final_page_flush st).flash (FLASH_TARGET_OFFSET + i) = D.getD i 0) ∧
    active_region_untouched (final_page_flush st) := by
  obtain ⟨le_len, hbuf, hlt, hpos, hflashed, haligned, hfresh, hseeded⟩ := h
  have hT : FLASH_TARGET_OFFSET = 1572864 := rfl
  have hP : FLASH_PAGE_SIZE = 256 := rfl
  have hS : FLASH_SECTOR_SIZE = 4096 := rfl
  rw [hP] at hlt haligned
  rw [hP, hS] at hseeded
  rw [hT] at hpos hflashed
  set fl := D.length - st.page_buffer.length with hfl
  have hlen : st.page_buffer.length ≤ D.length := le_len
  unfold final_page_flush
  dsimp only
  split
  case isFalse hne =>
    -- empty pending buffer: nothing programmed, `flashed` already covers D
    push_neg at hne
    exact ⟨fun i hi => by rw [hT]; exact hflashed i (by omega), hu⟩
  case isTrue hne =>
    -- derive the erase-safety fact before splitting on the erase condition
    have hpT : 1572864 ≤ st.current_page_start := by omega
    have h256p : 256 ∣ st.current_page_start := by
      rcases haligned with ⟨k, hk⟩
      exact ⟨6144 + k, by omega⟩
    split
    case isTrue hcond =>
      have hsafe : fl = 0 ∨ st.current_page_start % 4096 = 0 := by
        rcases hse : st.sector_erased with _ | _
        · left
          have := hfresh hse
          omega
        · right
          rw [hse] at hcond
          simp only [Bool.not_true, Bool.false_or, decide_eq_true_eq, hS]
            at hcond
          obtain ⟨hcur, hge⟩ := hseeded hse
          rw [hcur] at hcond
          omega
      constructor
      · intro i hi
        rw [hT]
        dsimp only [flash_bootloader_program, flash_bootloader_erase,
          flashWriteBytes]
        simp only [hS]
        by_cases hge : fl ≤ i
        · rw [if_pos ?hin]
          case hin =>
            constructor
            · omega
            · simp only [List.length_append, List.length_replicate]
              omega
          rw [List.getD_append _ _ _ _ (by omega), hbuf, getD_drop]
          congr 1
          omega
        · rw [if_neg (by omega)]
          rw [if_neg ?hout]
          case hout =>
            rintro ⟨h1, h2⟩
            simp only [List.length_replicate] at h2
            omega
          exact hflashed i (by omega)
      · intro w hw
        dsimp only [flash_bootloader_program, flash_bootloader_erase] at hw
        simp only [List.mem_append, List.mem_singleton] at hw
        rcases hw with (hw | hw) | hw
        · exact hu w hw
        · rw [hw]; dsimp only; rw [hT, hS]; omega
        · rw [hw]; dsimp only; rw [hT]; omega
    case isFalse hcond =>
      constructor
      · intro i hi
        rw [hT]
        dsimp only [flash_bootloader_program, flashWriteBytes]
        by_cases hge : fl ≤ i
        · rw [if_pos ?hin2]
          case hin2 =>
            constructor
            · omega
            · simp only [List.length_append, List.length_replicate]
              omega
          rw [List.getD_append _ _ _ _ (by omega), hbuf, getD_drop]
          congr 1
          omega
        · rw [if_neg (by omega)]
          exact hflashed i (by omega)
      · intro w hw
        dsimp only [flash_bootloader_program] at hw
        simp only [List.mem_append, List.mem_singleton] at hw
        rcases hw with hw | hw
        · exact hu w hw
        · rw [hw]; dsimp only; rw [hT]; omega

lemma final_page_flush_ghost (st : RecvState) :
    (final_page_flush st).chunk_count = st.chunk_count ∧
    (final_page_flush st).received_size = st.received_size ∧
    (final_page_flush st).running_crc = st.running_crc ∧
    (final_page_flush st).uart = st.uart ∧
    (final_page_flush st).data = st.data ∧
    (final_page_flush st).accepted_seqs = st.accepted_seqs := by
  unfold final_page_flush flash_bootloader_erase flash_bootloader_program
  dsimp only
  split
  · split <;> simp
  · simp

lemma verify_readback (f : Nat → Nat) (D : List Nat) (e : Nat)
    (hf : ∀ i < D.length, f (FLASH_TARGET_OFFSET + i) = D.getD i 0) :
    verify_staging_area f D.length e =
      decide ((D.foldl crc32_byte 0xFFFFFFFF ^^^ 0xFFFFFFFF) = e) := by
  have hfold : (List.range D.length).foldl
      (fun c i => crc32_byte c (f (FLASH_TARGET_OFFSET + i))) 0xFFFFFFFF =
      D.foldl crc32_byte 0xFFFFFFFF := by
    rw [← foldl_range_getD D crc32_byte]
    exact List.foldl_ext _ _ _
      (fun acc x hx => by rw [hf x (List.mem_range.1 hx)])
  unfold verify_staging_area
  rw [hfold]

lemma post_reception_state_ended (inp : BootInput) (st : RecvState)
    (hL : process_frames inp.frames (boot_init_state inp) = .ended st) :
    post_reception_state inp = final_page_flush st := by
  unfold post_reception_state
  rw [hL]

lemma post_reception_state_aborted (inp : BootInput) (e : Nat) (st : RecvState)
    (hL : process_frames inp.frames (boot_init_state inp) = .aborted e st) :
    post_reception_state inp = st := by
  unfold post_reception_state
  rw [hL]

/-- C1: during an OTA update the active region (offset 0) is never written
during reception and staging (every logged flash operation stays at or
above the staging base), and whenever the vector-table check fails or a
provided expected CRC-32 packet disagrees with the running CRC-32, the
whole run ends without any flash operation below the staging base — the
copy to the active region is never started. -/
theorem bootloader_no_active_write_before_validation (inp : BootInput) :
    active_region_untouched (post_reception_state inp) ∧
    ((vector_check (post_reception_state inp).flash = false ∨
      (∃ e, inp.crcPacket = some e ∧
        ((post_reception_state inp).running_crc ^^^ 0xFFFFFFFF) ≠ e)) →
      active_region_untouched
        (boot_outcome_state (bootloader_receive_firmware inp))) := by
  have hinv := process_frames_loopinv inp.frames _ (boot_init_loopinv inp)
  cases hL : process_frames inp.frames (boot_init_state inp) with
  | ended st =>
    rw [hL] at hinv
    have hinv : LoopInv st := hinv
    have hpost := post_reception_state_ended inp st hL
    have hfin := final_page_flush_inv st st.data hinv.stag hinv.untouched
    have hg := final_page_flush_ghost st
    constructor
    · rw [hpost]
      exact hfin.2
    · intro hbad
      have hrun : bootloader_receive_firmware inp =
          finish_reception st inp.crcPacket := by
        unfold bootloader_receive_firmware
        rw [hL]
      rw [hrun]
      unfold finish_reception
      dsimp only
      rcases hv : vector_check (final_page_flush st).flash with _ | _
      · -- vector check fails: abort, only a UART message is added
        simp only [Bool.not_false]
        rw [if_pos trivial]
        dsimp only [boot_outcome_state]
        intro w hw
        exact hfin.2 w hw
      · -- vector check passes: the hypothesis forces a CRC mismatch
        rcases hbad with hbad | ⟨e, hpkt, hne⟩
        · rw [hpost] at hbad
          rw [hbad] at hv
          exact absurd hv (by simp)
        · rw [if_neg (by simp)]
          have hver : verify_staging_area (final_page_flush st).flash
              (final_page_flush st).received_size e = false := by
            rw [hg.2.1, hinv.size]
            rw [verify_readback _ _ _ hfin.1]
            rw [hpost, hg.2.2.1] at hne
            rw [hinv.crc] at hne
            simp only [decide_eq_false_iff_not]
            exact fun hc => hne (by rw [← hc])
          rw [hpkt]
          dsimp only
          rw [hver]
          simp only [Bool.not_false]
          rw [if_pos trivial]
          dsimp only [boot_outcome_state]
          exact hfin.2
  | aborted e₀ st =>
    rw [hL] at hinv
    have hinv : LoopInv st := hinv
    have hpost := post_reception_state_aborted inp e₀ st hL
    constructor
    · rw [hpost]
      exact hinv.untouched
    · intro _
      have hrun : bootloader_receive_firmware inp = .err e₀ st := by
        unfold bootloader_receive_firmware
        rw [hL]
      rw [hrun]
      exact hinv.untouched

lemma accept_chunk_ghost (st : RecvState) (c : BootChunk) :
    (accept_chunk st c).chunk_count = st.chunk_count + 1 ∧
    (accept_chunk st c).accepted_seqs = st.accepted_seqs ++ [c.seq] := by
  have hg := fill_pages_ghost c.payload
    { st with running_crc := c.payload.foldl crc32_byte st.running_crc }
  dsimp only at hg
  unfold accept_chunk
  dsimp only
  exact ⟨by rw [hg.1], by rw [hg.2.2.2.2.2]⟩

/-- C5 counterexample: a chunk whose sequence number equals the expected
next value (0) is still rejected — and the OTA aborted with the checksum
error — when its XOR checksum is wrong, so sequence-number match alone is
not equivalent to acceptance. -/
theorem bootloader_seqmatch_not_accepted_cex :
    cexChunk.seq = (boot_init_state cexInput).chunk_count ∧
    (reception_state cexInput).accepted_seqs = [] ∧
    boot_result_code (bootloader_receive_firmware cexInput) =
      some BOOTLOADER_ERROR_CHECKSUM := by
  decide

/-- C5 (amended): the accepted sequence numbers of every reception are
exactly `0, 1, 2, …` (`List.range` of the accepted-chunk count); a
non-end-marker chunk whose sequence number differs from the expected next
value is rejected with the 2-byte error response `FF 02` and the OTA
aborts; and a chunk with the expected sequence number is accepted exactly
when its size is in `1..256` and its XOR checksum matches, appending its
sequence number and bumping the expected count. -/
theorem bootloader_chunk_acceptance_exact :
    (∀ inp : BootInput, (reception_state inp).accepted_seqs =
      List.range (reception_state inp).chunk_count) ∧
    (∀ (c : BootChunk) (rest : List BootChunk) (st : RecvState),
      c.seq ≠ 0xFFFFFFFF → c.seq ≠ st.chunk_count →
      process_frames (c :: rest) st =
        .aborted BOOTLOADER_ERROR_INVALID_SIZE
          { st with uart := st.uart ++ [0xFF, BOOTLOADER_ERROR_INVALID_SIZE] }) ∧
    (∀ (c : BootChunk) (rest : List BootChunk) (st : RecvState),
      c.seq ≠ 0xFFFFFFFF → c.seq = st.chunk_count → c.payload.length ≠ 0 →
      c.payload.length ≤ BOOTLOADER_CHUNK_MAX_SIZE → xor8 c.payload = c.csum →
      process_frames (c :: rest) st = process_frames rest (accept_chunk st c) ∧
      (accept_chunk st c).accepted_seqs = st.accepted_seqs ++ [c.seq] ∧
      (accept_chunk st c).chunk_count = st.chunk_count + 1) := by
  refine ⟨?_, ?_, ?_⟩
  · intro inp
    exact (reception_loopinv inp).seqs
  · intro c rest st hend hne
    rw [process_frames]
    rw [if_neg hend, if_pos (Or.inr (Or.inr hne))]
  · intro c rest st hend hseq hnz hle hcs
    rw [process_frames]
    rw [if_neg hend]
    rw [if_neg ?hval]
    case hval =>
      rintro (h | h | h)
      · exact hnz h
      · rw [show BOOTLOADER_CHUNK_MAX_SIZE = 256 from rfl] at h
        rw [show BOOTLOADER_CHUNK_MAX_SIZE = 256 from rfl] at hle
        omega
      · exact h hseq
    rw [if_neg (fun hx => hx hcs)]
    exact ⟨rfl, (accept_chunk_ghost st c).2, (accept_chunk_ghost st c).1⟩

theorem bootloader_no_active_write_before_validation_witness :
    vector_check (post_reception_state emptyInput).flash = false ∧
    active_region_untouched (post_reception_state emptyInput) ∧
    active_region_untouched
      (boot_outcome_state (bootloader_receive_firmware emptyInput)) :=
  ⟨by decide, (bootloader_no_active_write_before_validation emptyInput).1,
    (bootloader_no_active_write_before_validation emptyInput).2
      (Or.inl (by decide))⟩

theorem bootloader_chunk_acceptance_exact_witness :
    (reception_state emptyInput).accepted_seqs =
      List.range (reception_state emptyInput).chunk_count ∧
    process_frames [wChunkBad] (boot_init_state emptyInput) =
      .aborted BOOTLOADER_ERROR_INVALID_SIZE
        { boot_init_state emptyInput with uart := [0xFF, 2] } ∧
    (accept_chunk (boot_init_state emptyInput) wChunkGood).accepted_seqs =
      [0] ∧
    (accept_chunk (boot_init_state emptyInput) wChunkGood).chunk_count = 1 := by
  obtain ⟨h1, h2, h3⟩ := bootloader_chunk_acceptance_exact
  have h3w := h3 wChunkGood [] (boot_init_state emptyInput)
    (by decide) (by decide) (by decide) (by decide) (by decide)
  exact ⟨h1 emptyInput, h2 wChunkBad [] _ (by decide) (by decide),
    h3w.2.1, h3w.2.2⟩
